import Mathlib

/-! # Resource caching and D3D11 texture creation

A shallow embedding of

* `Runtime/RHI/D3D11/D3D11_Texture.cpp`
  (`RHI_Texture::ShaderResource_Create2D`, `RHI_Texture::ShaderResource_CreateCubemap`), and
* `Runtime/Resource/ResourceManager.h`
  (`ResourceManager::Load`, `ResourceManager::Add`, `GetResourceByName`, `ToDerivedWeak`),

followed by theorems about them.

Conventions.  C++ `unsigned int` / `UINT` values are natural numbers; every operation that can
wrap is written with an explicit `% UINT_MODULUS`.  A byte buffer is the list of its bytes, a
null pointer is `none`.  The D3D11 device is a pair of functions that either fail (`none`) or
produce a handle, and every call made on the device is appended to a call list, so that what
was passed to the device and how often a handle was released can be stated.  Logging calls
(`LOG_ERROR`, `LOG_WARNING`, ...) have no effect on the state and are left out.
-/

namespace Spartan

/-! ## D3D11 data types and constants -/

/-- Number of values of a C++ `unsigned int` (`UINT`): `2 ^ 32`. -/
def UINT_MODULUS : Nat := 4294967296

/-- The contents of a `std::vector<std::byte>`. -/
abbrev Bytes := List Nat

/-- Value of `D3D11_USAGE_DEFAULT` in `d3d11.h`. -/
def D3D11_USAGE_DEFAULT : Nat := 0
/-- Value of `D3D11_USAGE_IMMUTABLE` in `d3d11.h`. -/
def D3D11_USAGE_IMMUTABLE : Nat := 1
/-- Value of `D3D11_BIND_SHADER_RESOURCE` in `d3d11.h`. -/
def D3D11_BIND_SHADER_RESOURCE : Nat := 8
/-- Value of `D3D11_BIND_RENDER_TARGET` in `d3d11.h`. -/
def D3D11_BIND_RENDER_TARGET : Nat := 32
/-- Value of `D3D11_RESOURCE_MISC_GENERATE_MIPS` in `d3d11.h`. -/
def D3D11_RESOURCE_MISC_GENERATE_MIPS : Nat := 1
/-- Value of `D3D11_RESOURCE_MISC_TEXTURECUBE` in `d3d11.h`. -/
def D3D11_RESOURCE_MISC_TEXTURECUBE : Nat := 4
/-- Value of `D3D11_SRV_DIMENSION_TEXTURE2D` in `d3d11.h`. -/
def D3D11_SRV_DIMENSION_TEXTURE2D : Nat := 4
/-- Value of `D3D11_SRV_DIMENSION_TEXTURECUBE` in `d3d11.h`. -/
def D3D11_SRV_DIMENSION_TEXTURECUBE : Nat := 9

/-- The fields of `D3D11_TEXTURE2D_DESC` (`SampleDesc` flattened). -/
structure D3D11_TEXTURE2D_DESC where
  Width : Nat
  Height : Nat
  MipLevels : Nat
  ArraySize : Nat
  Format : Nat
  SampleDesc_Count : Nat
  SampleDesc_Quality : Nat
  Usage : Nat
  BindFlags : Nat
  MiscFlags : Nat
  CPUAccessFlags : Nat
deriving DecidableEq, Repr

/-- The fields of `D3D11_SUBRESOURCE_DATA`; `pSysMem` is the buffer pointed to. -/
structure D3D11_SUBRESOURCE_DATA where
  pSysMem : Bytes
  SysMemPitch : Nat
  SysMemSlicePitch : Nat
deriving DecidableEq, Repr

/-- The fields of `D3D11_SHADER_RESOURCE_VIEW_DESC` that the code sets. -/
structure D3D11_SHADER_RESOURCE_VIEW_DESC where
  Format : Nat
  ViewDimension : Nat
  MostDetailedMip : Nat
  MipLevels : Nat
deriving DecidableEq, Repr

/-- The two fallible calls of `ID3D11Device` used by the code.  `none` is a failed `HRESULT`;
`some h` is success with the created object `h`.  `CreateTexture2D` receives what its two
pointer arguments point to (`none` for a null pointer). -/
structure D3D11_Device where
  CreateTexture2D : Option D3D11_TEXTURE2D_DESC → Option (List D3D11_SUBRESOURCE_DATA) → Option Nat
  CreateShaderResourceView : Nat → D3D11_SHADER_RESOURCE_VIEW_DESC → Option Nat

/-- A call made on the device, the device context or a COM object, with its arguments (a
pointer argument is what it points to, `none` for a null pointer). -/
inductive DeviceCall where
  | CreateTexture2D (desc : Option D3D11_TEXTURE2D_DESC)
      (data : Option (List D3D11_SUBRESOURCE_DATA))
  | CreateShaderResourceView (texture : Nat) (desc : D3D11_SHADER_RESOURCE_VIEW_DESC)
  | UpdateSubresource (texture : Nat) (data : Option Bytes) (rowPitch : Nat)
  | GenerateMips (view : Nat)
  | Release (texture : Nat)
deriving DecidableEq, Repr

/-- The members of `RHI_Texture` read or written by the two functions.  Their declarations
(`RHI_Texture.h`) are not at hand: `m_bpc` and `m_size` are taken to be `unsigned int`
(`m_size` a 32-bit byte count), `m_texture_view` is the `ID3D11ShaderResourceView*` (`none`
is `nullptr`). -/
structure RHI_Texture where
  m_mipmap_support : Bool
  m_bpc : Nat
  m_size : Nat
  m_texture_view : Option Nat
deriving DecidableEq, Repr

/-- Outcome of one call: the returned `bool`, the texture afterwards, the device calls made. -/
structure CallResult where
  ret : Bool
  self : RHI_Texture
  calls : List DeviceCall
deriving DecidableEq, Repr

/-! ## The per-mip loop body -/

/-- Local variables of the mip loop together with `m_size`. -/
structure MipLoopState where
  vec_subresource_data : List D3D11_SUBRESOURCE_DATA
  mip_width : Nat
  mip_height : Nat
  m_size : Nat
deriving DecidableEq, Repr

/-- One iteration of the mip loop (`D3D11_Texture.cpp` lines 87-103, and the identical body at
lines 182-201): an empty buffer is skipped by `continue`; otherwise an entry is appended, the
mip dimensions are halved and `m_size` grows. -/
def mip_step (channels m_bpc : Nat) (st : MipLoopState) (mip : Bytes) : MipLoopState :=
  if mip.isEmpty then st
  else
    { vec_subresource_data := st.vec_subresource_data ++
        [{ pSysMem := mip
           SysMemPitch := (st.mip_width * channels * (m_bpc / 8)) % UINT_MODULUS
           SysMemSlicePitch := 0 }]
      mip_width := max (st.mip_width / 2) 1
      mip_height := max (st.mip_height / 2) 1
      m_size := (st.m_size + ((mip.length % UINT_MODULUS) * (m_bpc / 8)) % UINT_MODULUS)
        % UINT_MODULUS }

/-- The loop `for (unsigned int i = 0; i < static_cast<unsigned int>(mipmaps.size()); i++)` of
`ShaderResource_Create2D` (lines 81-104). -/
def Create2D_loop (self : RHI_Texture) (width height channels : Nat) (mipmaps : List Bytes) :
    MipLoopState :=
  (mipmaps.take (mipmaps.length % UINT_MODULUS)).foldl (mip_step channels self.m_bpc)
    { vec_subresource_data := [], mip_width := width, mip_height := height,
      m_size := self.m_size }

/-! ## `RHI_Texture::ShaderResource_Create2D` -/

/-- The value of `generate_mipmaps` after lines 56-64. -/
def generate_mipmaps (self : RHI_Texture) (width height : Nat) (mipmaps : List Bytes) : Bool :=
  let generate_mipmaps := self.m_mipmap_support && (mipmaps.length == 1)
  if generate_mipmaps then
    if width < 4 || height < 4 then false else generate_mipmaps
  else generate_mipmaps

/-- The descriptor `texture_desc` filled in at lines 67-78. -/
def texture_desc_2D (d3d11_format : Nat → Nat) (self : RHI_Texture) (width height format : Nat)
    (mipmaps : List Bytes) : D3D11_TEXTURE2D_DESC :=
  let gen := generate_mipmaps self width height mipmaps
  { Width := width
    Height := height
    MipLevels := if gen then 7 else mipmaps.length % UINT_MODULUS
    ArraySize := 1
    Format := d3d11_format format
    SampleDesc_Count := 1
    SampleDesc_Quality := 0
    Usage := if gen then D3D11_USAGE_DEFAULT else D3D11_USAGE_IMMUTABLE
    BindFlags := if gen then D3D11_BIND_SHADER_RESOURCE ||| D3D11_BIND_RENDER_TARGET
      else D3D11_BIND_SHADER_RESOURCE
    MiscFlags := if gen then D3D11_RESOURCE_MISC_GENERATE_MIPS else 0
    CPUAccessFlags := 0 }

/-- The descriptor `shader_resource_desc` filled in at lines 107-111. -/
def shader_resource_desc_2D (d3d11_format : Nat → Nat) (self : RHI_Texture)
    (width height format : Nat) (mipmaps : List Bytes) : D3D11_SHADER_RESOURCE_VIEW_DESC :=
  { Format := d3d11_format format
    ViewDimension := D3D11_SRV_DIMENSION_TEXTURE2D
    MostDetailedMip := 0
    MipLevels := (texture_desc_2D d3d11_format self width height format mipmaps).MipLevels }

/-- The pointer `v.data()` of a `std::vector` handed to the device: a null pointer (`none`) when
the vector is empty, otherwise the array it points to. -/
def vector_data {α : Type} (v : List α) : Option (List α) :=
  if v.isEmpty then none else some v

/-- The second argument of `CreateTexture2D` at line 115:
`generate_mipmaps ? nullptr : vec_subresource_data.data()`. -/
def initial_data_2D (self : RHI_Texture) (width height channels : Nat) (mipmaps : List Bytes) :
    Option (List D3D11_SUBRESOURCE_DATA) :=
  if generate_mipmaps self width height mipmaps then none
  else vector_data (Create2D_loop self width height channels mipmaps).vec_subresource_data

/-- `RHI_Texture::ShaderResource_Create2D` (lines 47-139).  `device` is
`m_rhi_device->GetContext()->device`, `d3d11_format` the format table. -/
def ShaderResource_Create2D (d3d11_format : Nat → Nat) (device : Option D3D11_Device)
    (self : RHI_Texture) (width height channels format : Nat) (mipmaps : List Bytes) :
    CallResult :=
  match device with
  | none => { ret := false, self := self, calls := [] }
  | some dev =>
    if mipmaps.isEmpty then { ret := false, self := self, calls := [] }
    else
      let gen := generate_mipmaps self width height mipmaps
      let texture_desc := texture_desc_2D d3d11_format self width height format mipmaps
      let st := Create2D_loop self width height channels mipmaps
      let self1 := { self with m_size := st.m_size }
      let shader_resource_desc :=
        shader_resource_desc_2D d3d11_format self width height format mipmaps
      let data := initial_data_2D self width height channels mipmaps
      let call1 := DeviceCall.CreateTexture2D (some texture_desc) data
      match dev.CreateTexture2D (some texture_desc) data with
      | none => { ret := false, self := self1, calls := [call1] }
      | some texture =>
        let call2 := DeviceCall.CreateShaderResourceView texture shader_resource_desc
        match dev.CreateShaderResourceView texture shader_resource_desc with
        | some shader_resource_view =>
          let mips :=
            if gen then
              [DeviceCall.UpdateSubresource texture (vector_data (mipmaps.headD []))
                 ((width * channels * (self.m_bpc / 8)) % UINT_MODULUS),
               DeviceCall.GenerateMips shader_resource_view]
            else []
          { ret := true
            self := { self1 with m_texture_view := some shader_resource_view }
            calls := [call1, call2] ++ mips ++ [DeviceCall.Release texture] }
        | none =>
          { ret := true
            self := { self1 with m_texture_view := none }
            calls := [call1, call2, DeviceCall.Release texture] }

/-! ## `RHI_Texture::ShaderResource_CreateCubemap` -/

/-- Local vectors of the cubemap's outer loop together with `m_size`. -/
structure SideLoopState where
  vec_subresource_data : List D3D11_SUBRESOURCE_DATA
  vec_texture_desc : List D3D11_TEXTURE2D_DESC
  m_size : Nat
deriving DecidableEq, Repr

/-- The descriptor `texture_desc` filled in for a side at lines 164-175. -/
def texture_desc_cube (d3d11_format : Nat → Nat) (width height format mip_levels : Nat) :
    D3D11_TEXTURE2D_DESC :=
  { Width := width
    Height := height
    MipLevels := mip_levels
    ArraySize := 6
    Format := d3d11_format format
    SampleDesc_Count := 1
    SampleDesc_Quality := 0
    Usage := D3D11_USAGE_IMMUTABLE
    BindFlags := D3D11_BIND_SHADER_RESOURCE
    MiscFlags := D3D11_RESOURCE_MISC_TEXTURECUBE
    CPUAccessFlags := 0 }

/-- One iteration of `for (const auto& side : mipmaps)` (lines 155-205): an empty side is
skipped; otherwise the mips of the side are consumed starting again from `width`, `height`,
and the side's descriptor is appended. -/
def side_step (d3d11_format : Nat → Nat) (m_bpc width height channels format mip_levels : Nat)
    (st : SideLoopState) (side : List Bytes) : SideLoopState :=
  if side.isEmpty then st
  else
    let inner := side.foldl (mip_step channels m_bpc)
      { vec_subresource_data := st.vec_subresource_data, mip_width := width,
        mip_height := height, m_size := st.m_size }
    { vec_subresource_data := inner.vec_subresource_data
      vec_texture_desc := st.vec_texture_desc ++
        [texture_desc_cube d3d11_format width height format mip_levels]
      m_size := inner.m_size }

/-- The value of `mip_levels` at line 153: `static_cast<UINT>(mipmaps[0].size())`. -/
def cube_mip_levels (mipmaps : List (List Bytes)) : Nat :=
  (mipmaps.headD []).length % UINT_MODULUS

/-- The whole outer loop of `ShaderResource_CreateCubemap` (lines 149-205). -/
def Cubemap_loop (d3d11_format : Nat → Nat) (self : RHI_Texture)
    (width height channels format : Nat) (mipmaps : List (List Bytes)) : SideLoopState :=
  mipmaps.foldl
    (side_step d3d11_format self.m_bpc width height channels format (cube_mip_levels mipmaps))
    { vec_subresource_data := [], vec_texture_desc := [], m_size := self.m_size }

/-- The descriptor `shader_resource_desc` filled in at lines 208-212. -/
def shader_resource_desc_cube (d3d11_format : Nat → Nat) (format : Nat)
    (mipmaps : List (List Bytes)) : D3D11_SHADER_RESOURCE_VIEW_DESC :=
  { Format := d3d11_format format
    ViewDimension := D3D11_SRV_DIMENSION_TEXTURECUBE
    MostDetailedMip := 0
    MipLevels := cube_mip_levels mipmaps }

/-- The second argument of `CreateTexture2D` at line 222: `vec_subresource_data.data()`. -/
def initial_data_cube (d3d11_format : Nat → Nat) (self : RHI_Texture)
    (width height channels format : Nat) (mipmaps : List (List Bytes)) :
    Option (List D3D11_SUBRESOURCE_DATA) :=
  vector_data
    (Cubemap_loop d3d11_format self width height channels format mipmaps).vec_subresource_data

/-- `RHI_Texture::ShaderResource_CreateCubemap` (lines 141-239).  `vec_texture_desc.data()`
points to the first collected descriptor (`none` when no side was collected) and
`vec_subresource_data.data()` is `initial_data_cube` (`none` when no mip was collected). -/
def ShaderResource_CreateCubemap (d3d11_format : Nat → Nat) (device : Option D3D11_Device)
    (self : RHI_Texture) (width height channels format : Nat) (mipmaps : List (List Bytes)) :
    CallResult :=
  if mipmaps.isEmpty then { ret := false, self := self, calls := [] }
  else
    let st := Cubemap_loop d3d11_format self width height channels format mipmaps
    let self1 := { self with m_size := st.m_size }
    let shader_resource_desc := shader_resource_desc_cube d3d11_format format mipmaps
    match device with
    | none => { ret := false, self := self1, calls := [] }
    | some dev =>
      let data := initial_data_cube d3d11_format self width height channels format mipmaps
      let call1 := DeviceCall.CreateTexture2D st.vec_texture_desc.head? data
      match dev.CreateTexture2D st.vec_texture_desc.head? data with
      | none => { ret := false, self := self1, calls := [call1] }
      | some texture =>
        let call2 := DeviceCall.CreateShaderResourceView texture shader_resource_desc
        match dev.CreateShaderResourceView texture shader_resource_desc with
        | some shader_resource_view =>
          { ret := true
            self := { self1 with m_texture_view := some shader_resource_view }
            calls := [call1, call2, DeviceCall.Release texture] }
        | none =>
          { ret := false
            self := { self1 with m_texture_view := none }
            calls := [call1, call2, DeviceCall.Release texture] }

/-! ## Closed forms used to state what the loops compute -/

/-- The chain of mip dimensions in the words of the specification: level `0` has the given
dimension and each further level has `max (previous / 2) 1`. -/
def mip_dimension (w : Nat) : Nat → Nat
  | 0 => w
  | k + 1 => max (mip_dimension w k / 2) 1

/-- The entry appended by `mip_step` for a non-empty buffer at mip width `w`. -/
def subresource_entry (channels m_bpc w : Nat) (mip : Bytes) : D3D11_SUBRESOURCE_DATA :=
  { pSysMem := mip
    SysMemPitch := (w * channels * (m_bpc / 8)) % UINT_MODULUS
    SysMemSlicePitch := 0 }

/-- Entries for a list of buffers that are all consumed, the first at mip width `w`. -/
def entries_from (channels m_bpc : Nat) : Nat → List Bytes → List D3D11_SUBRESOURCE_DATA
  | _, [] => []
  | w, m :: ms => subresource_entry channels m_bpc w m ::
      entries_from channels m_bpc (max (w / 2) 1) ms

/-- The buffers of a mip chain that are not empty, in their order. -/
def non_empty_levels (mips : List Bytes) : List Bytes := mips.filter (fun m => !m.isEmpty)

/-- Sum of `length * (m_bpc / 8)` over the buffers, in unbounded arithmetic. -/
def byte_total (m_bpc : Nat) (mips : List Bytes) : Nat :=
  (mips.map (fun m => m.length * (m_bpc / 8))).sum

end Spartan

namespace Directus

/-! ## Resources, the resource cache and the file-system helpers

`Resource.h`, `ResourceCache.h` and the `FileSystem` helpers are not part of the sources at
hand; they are modelled from the specification's data model and contracts. -/

/-- Modelled from the spec: the load-state of a resource (`Resource.h` is missing),
`Idle|Loading|Completed|Failed`.  `ResourceManager::Load` uses the enumerators `Loading`,
`Failed` and `Completed`. -/
inductive LoadState where
  | Idle
  | Loading
  | Completed
  | Failed
deriving DecidableEq, Repr

/-- Modelled from the spec: the `Resource` base class (`Resource.h` is missing): a unique
numeric identity assigned at construction, a file path, a display name, a resource-type tag
(the dynamic type tested by `dynamic_pointer_cast`) and a load-state. -/
structure Resource where
  m_resourceID : Nat
  m_resourceFilePath : String
  m_resourceName : String
  m_resourceType : Nat
  m_loadState : LoadState
deriving DecidableEq, Repr

/-- Modelled from the spec: the state of a resource created by `std::make_shared<T>(m_context)`
(`Resource.h` is missing): the identity it is given, type `T`, no path or name yet, load-state
`Idle`. -/
def Resource.construct (id T : Nat) : Resource :=
  { m_resourceID := id, m_resourceFilePath := "", m_resourceName := "", m_resourceType := T,
    m_loadState := LoadState.Idle }

/-- Modelled from the spec: the `ResourceCache` (`ResourceCache.h` is missing), a collection
with one entry per resource, in insertion order. -/
abbrev ResourceCache := List Resource

/-- Modelled from the spec: `ResourceCache::IsCached` (`ResourceCache.h` is missing), true iff
an entry with that exact path exists. -/
def ResourceCache.IsCached (cache : ResourceCache) (filePath : String) : Bool :=
  cache.any (fun r => r.m_resourceFilePath == filePath)

/-- Modelled from the spec: `ResourceCache::Add` (`ResourceCache.h` is missing), inserts the
resource; a no-op if its path is already present. -/
def ResourceCache.Add (cache : ResourceCache) (resource : Resource) : ResourceCache :=
  if cache.IsCached resource.m_resourceFilePath then cache else cache ++ [resource]

/-- Modelled from the spec: `ResourceCache::GetByName` (`ResourceCache.h` is missing), the
entry stored under that name, searched in insertion order; an absent key yields an empty
result. -/
def ResourceCache.GetByName (cache : ResourceCache) (name : String) : Option Resource :=
  cache.find? (fun r => r.m_resourceName == name)

/-- The two `FileSystem` helpers called by `ResourceManager` (`FileSystem.h` is missing); the
functions below take them as a parameter. -/
structure FileSystem where
  GetRelativeFilePath : String → String
  GetFileNameNoExtensionFromFilePath : String → String

/-- Drops `dir` from the front of `path`; `none` when `path` does not start with `dir`. -/
def strip_directory : List Char → List Char → Option (List Char)
  | [], path => some path
  | _ :: _, [] => none
  | d :: dir, c :: path => if d = c then strip_directory dir path else none

/-- Modelled from the spec: `FileSystem::GetRelativeFilePath` (`FileSystem.h` is missing),
normalises a path to project-relative form: a path inside the project directory loses that
directory, any other path is returned as it is. -/
def GetRelativeFilePath (projectDirectory filePath : String) : String :=
  match strip_directory projectDirectory.data filePath.data with
  | some rest => String.mk rest
  | none => filePath

/-- Modelled from the spec: `FileSystem::GetFileNameNoExtensionFromFilePath` (`FileSystem.h`
is missing), the file stem: what follows the last `/`, without its last `.` and what follows
it. -/
def GetFileNameNoExtensionFromFilePath (filePath : String) : String :=
  let fileName := (filePath.data.reverse.takeWhile (fun c => c != '/')).reverse
  if fileName.contains '.' then
    String.mk ((fileName.reverse.dropWhile (fun c => c != '.')).drop 1).reverse
  else String.mk fileName

/-- The file system of a project rooted at `projectDirectory`. -/
def project_file_system (projectDirectory : String) : FileSystem :=
  { GetRelativeFilePath := GetRelativeFilePath projectDirectory
    GetFileNameNoExtensionFromFilePath := GetFileNameNoExtensionFromFilePath }

/-! ## `ResourceManager` -/

/-- The state of a `ResourceManager` that `Load` and `Add` use: the cache, and the identity
the next constructed resource receives (modelled from the spec: identities are unique and
assigned once at construction). -/
structure ResourceManager where
  m_resourceCache : ResourceCache
  next_id : Nat
deriving DecidableEq, Repr

/-- A call made by `Load` on the resource it constructed (identified by its identity). -/
inductive ResourceCall where
  | SetLoadState (id : Nat) (state : LoadState)
  | LoadFromFile (id : Nat) (filePath : String)
deriving DecidableEq, Repr

/-- `ResourceManager::ToDerivedWeak<Type>` (lines 207-214): `dynamic_pointer_cast` yields null
for a null pointer and for a resource of another type; the result is a weak reference
(`none` when empty). -/
def ResourceManager.ToDerivedWeak (T : Nat) (base : Option Resource) : Option Resource :=
  match base with
  | none => none
  | some b => if b.m_resourceType = T then some b else none

/-- `ResourceManager::GetResourceByName<T>` (lines 126-130). -/
def ResourceManager.GetResourceByName (T : Nat) (mgr : ResourceManager) (name : String) :
    Option Resource :=
  ResourceManager.ToDerivedWeak T (mgr.m_resourceCache.GetByName name)

/-- `ResourceManager::Add<T>(std::shared_ptr<T>)` (lines 89-105).  Returns the weak reference
and the manager afterwards. -/
def ResourceManager.Add (fs : FileSystem) (T : Nat) (mgr : ResourceManager)
    (resource : Option Resource) : Option Resource × ResourceManager :=
  match resource with
  | none => (none, mgr)
  | some r =>
    if mgr.m_resourceCache.IsCached r.m_resourceFilePath then
      (ResourceManager.GetResourceByName T mgr
        (fs.GetFileNameNoExtensionFromFilePath r.m_resourceFilePath), mgr)
    else
      (some r, { mgr with m_resourceCache := mgr.m_resourceCache.Add r })

/-- Outcome of `Load`: the weak reference returned (`none` when empty), the manager
afterwards, the resource constructed by the call in its final state (`none` when the call
constructed none) and the calls made on it. -/
structure LoadResult where
  ret : Option Resource
  mgr : ResourceManager
  typed : Option Resource
  calls : List ResourceCall
deriving DecidableEq, Repr

/-- `ResourceManager::Load<T>` (lines 51-82).  `LoadFromFile` is the importer behind
`T::LoadFromFile`: whether loading the given path succeeds. -/
def ResourceManager.Load (fs : FileSystem) (LoadFromFile : String → Bool) (T : Nat)
    (mgr : ResourceManager) (filePath : String) : LoadResult :=
  let relativeFilePath := fs.GetRelativeFilePath filePath
  let name := fs.GetFileNameNoExtensionFromFilePath relativeFilePath
  if mgr.m_resourceCache.IsCached filePath then
    { ret := ResourceManager.GetResourceByName T mgr name, mgr := mgr, typed := none,
      calls := [] }
  else
    let id := mgr.next_id
    let mgr1 := { mgr with next_id := mgr.next_id + 1 }
    let typed := Resource.construct id T
    let typed := { typed with m_resourceFilePath := relativeFilePath }
    let typed := { typed with m_resourceName := name }
    let typed := { typed with m_loadState := LoadState.Loading }
    if !LoadFromFile relativeFilePath then
      { ret := none
        mgr := mgr1
        typed := some { typed with m_loadState := LoadState.Failed }
        calls := [ResourceCall.SetLoadState id LoadState.Loading,
          ResourceCall.LoadFromFile id relativeFilePath,
          ResourceCall.SetLoadState id LoadState.Failed] }
    else
      let completed := { typed with m_loadState := LoadState.Completed }
      let added := ResourceManager.Add fs T mgr1 (some completed)
      { ret := added.1
        mgr := added.2
        typed := some completed
        calls := [ResourceCall.SetLoadState id LoadState.Loading,
          ResourceCall.LoadFromFile id relativeFilePath,
          ResourceCall.SetLoadState id LoadState.Completed] }

/-- Number of importer invocations among the calls. -/
def importer_invocations (calls : List ResourceCall) : Nat :=
  (calls.filter (fun c => match c with
    | ResourceCall.LoadFromFile _ _ => true
    | _ => false)).length

end Directus

/-! # Theorems -/

namespace Spartan

/-! ## The mip loop -/

theorem mip_dimension_shift (w k : Nat) :
    mip_dimension (max (w / 2) 1) k = mip_dimension w (k + 1) := by
  induction k with
  | zero => rfl
  | succ k ih => simp only [mip_dimension] at ih ⊢; rw [ih]

theorem mip_dimension_closed (w k : Nat) (h : 1 ≤ w ∨ 1 ≤ k) :
    mip_dimension w k = max (w / 2 ^ k) 1 := by
  induction k with
  | zero =>
    rcases h with h | h
    · simp [mip_dimension]; omega
    · omega
  | succ k ih =>
    simp only [mip_dimension]
    by_cases hk : k = 0
    · subst hk; simp [mip_dimension]
    · rw [ih (Or.inr (by omega))]
      rw [pow_succ, ← Nat.div_div_eq_div_mul]
      rcases Nat.eq_zero_or_pos (w / 2 ^ k) with h0 | h0
      · simp [h0]
      · rw [max_eq_left h0]

theorem size_step_mod (s l b r : Nat) :
    ((s + ((l % UINT_MODULUS) * b) % UINT_MODULUS) % UINT_MODULUS + r) % UINT_MODULUS
      = (s + (l * b + r)) % UINT_MODULUS := by
  have h1 : ((l % UINT_MODULUS) * b) % UINT_MODULUS = (l * b) % UINT_MODULUS := by
    rw [Nat.mul_mod, Nat.mod_mod, ← Nat.mul_mod]
  rw [h1]
  generalize l * b = x
  unfold UINT_MODULUS
  omega

theorem mip_step_of_empty (channels m_bpc : Nat) (st : MipLoopState) (m : Bytes)
    (hm : m.isEmpty = true) : mip_step channels m_bpc st m = st := by
  simp [mip_step, hm]

theorem mip_step_of_non_empty (channels m_bpc : Nat) (st : MipLoopState) (m : Bytes)
    (hm : ¬ m.isEmpty = true) :
    mip_step channels m_bpc st m =
      { vec_subresource_data := st.vec_subresource_data ++
          [subresource_entry channels m_bpc st.mip_width m]
        mip_width := max (st.mip_width / 2) 1
        mip_height := max (st.mip_height / 2) 1
        m_size := (st.m_size + ((m.length % UINT_MODULUS) * (m_bpc / 8)) % UINT_MODULUS)
          % UINT_MODULUS } := by
  simp [mip_step, hm, subresource_entry]

/-- What the mip loop leaves in its local variables: one entry per non-empty buffer, whose
stride uses the width halved once per preceding non-empty buffer. -/
theorem foldl_mip_step_locals (channels m_bpc : Nat) (mips : List Bytes) (st : MipLoopState) :
    (mips.foldl (mip_step channels m_bpc) st).vec_subresource_data =
        st.vec_subresource_data ++
          entries_from channels m_bpc st.mip_width (non_empty_levels mips)
      ∧ (mips.foldl (mip_step channels m_bpc) st).mip_width =
        mip_dimension st.mip_width (non_empty_levels mips).length
      ∧ (mips.foldl (mip_step channels m_bpc) st).mip_height =
        mip_dimension st.mip_height (non_empty_levels mips).length := by
  induction mips generalizing st with
  | nil => simp [non_empty_levels, entries_from, mip_dimension]
  | cons m ms ih =>
    rw [List.foldl_cons]
    by_cases hm : m.isEmpty = true
    · rw [mip_step_of_empty _ _ _ _ hm]
      have hf : non_empty_levels (m :: ms) = non_empty_levels ms := by
        simp [non_empty_levels, hm]
      rw [hf]
      exact ih st
    · rw [mip_step_of_non_empty _ _ _ _ hm]
      have hf : non_empty_levels (m :: ms) = m :: non_empty_levels ms := by
        simp [non_empty_levels, hm]
      rw [hf]
      obtain ⟨h1, h2, h3⟩ := ih
        { vec_subresource_data := st.vec_subresource_data ++
            [subresource_entry channels m_bpc st.mip_width m]
          mip_width := max (st.mip_width / 2) 1
          mip_height := max (st.mip_height / 2) 1
          m_size := (st.m_size + ((m.length % UINT_MODULUS) * (m_bpc / 8)) % UINT_MODULUS)
            % UINT_MODULUS }
      refine ⟨?_, ?_, ?_⟩
      · rw [h1]; simp [entries_from]
      · rw [h2]; simp [mip_dimension_shift]
      · rw [h3]; simp [mip_dimension_shift]

/-- What the mip loop adds to `m_size`. -/
theorem foldl_mip_step_size (channels m_bpc : Nat) (mips : List Bytes) (st : MipLoopState)
    (hs : st.m_size < UINT_MODULUS) :
    (mips.foldl (mip_step channels m_bpc) st).m_size =
      (st.m_size + byte_total m_bpc (non_empty_levels mips)) % UINT_MODULUS := by
  induction mips generalizing st with
  | nil => simp [non_empty_levels, byte_total, Nat.mod_eq_of_lt hs]
  | cons m ms ih =>
    rw [List.foldl_cons]
    by_cases hm : m.isEmpty = true
    · rw [mip_step_of_empty _ _ _ _ hm, ih st hs]
      simp [non_empty_levels, hm]
    · rw [mip_step_of_non_empty _ _ _ _ hm]
      rw [ih _ (Nat.mod_lt _ (by decide))]
      have hf : non_empty_levels (m :: ms) = m :: non_empty_levels ms := by
        simp [non_empty_levels, hm]
      rw [hf]
      simp only [byte_total, List.map_cons, List.sum_cons]
      exact size_step_mod _ _ _ _

theorem entries_from_pSysMem (channels m_bpc : Nat) (ms : List Bytes) (w : Nat) :
    (entries_from channels m_bpc w ms).map (fun d => d.pSysMem) = ms := by
  induction ms generalizing w with
  | nil => rfl
  | cons m ms ih => simp [entries_from, subresource_entry, ih]

theorem entries_from_getElem? (channels m_bpc : Nat) (ms : List Bytes) (w j : Nat) :
    (entries_from channels m_bpc w ms)[j]? =
      (ms[j]?).map (subresource_entry channels m_bpc (mip_dimension w j)) := by
  induction ms generalizing w j with
  | nil => simp [entries_from]
  | cons m ms ih =>
    cases j with
    | zero => simp [entries_from, mip_dimension]
    | succ j => simp [entries_from, ih, mip_dimension_shift]

theorem non_empty_levels_append (a b : List Bytes) :
    non_empty_levels (a ++ b) = non_empty_levels a ++ non_empty_levels b := by
  simp [non_empty_levels]

/-- A non-empty level `i` is the entry of the non-empty levels whose index is the number of
non-empty levels before `i`. -/
theorem non_empty_levels_index (mips : List Bytes) (i : Nat) (hi : i < mips.length)
    (hne : mips[i] ≠ []) :
    (non_empty_levels mips)[(non_empty_levels (mips.take i)).length]? = some mips[i] := by
  induction mips generalizing i with
  | nil => simp at hi
  | cons m ms ih =>
    cases i with
    | zero =>
      have hm : m.isEmpty = false := by
        cases m with
        | nil => simp at hne
        | cons a l => rfl
      simp [non_empty_levels, hm]
    | succ i =>
      have hi2 : i < ms.length := by simpa using hi
      have hne2 : ms[i] ≠ [] := by simpa using hne
      have key := ih i hi2 hne2
      by_cases hm : m.isEmpty = true
      · have h1 : non_empty_levels (m :: ms) = non_empty_levels ms := by
          simp [non_empty_levels, hm]
        have h2 : non_empty_levels ((m :: ms).take (i + 1)) = non_empty_levels (ms.take i) := by
          simp [non_empty_levels, hm]
        rw [h1, h2]
        simpa using key
      · have h1 : non_empty_levels (m :: ms) = m :: non_empty_levels ms := by
          simp [non_empty_levels, hm]
        have h2 : non_empty_levels ((m :: ms).take (i + 1))
            = m :: non_empty_levels (ms.take i) := by
          simp [non_empty_levels, hm]
        rw [h1, h2]
        simpa using key

theorem Create2D_loop_take (self : RHI_Texture) (width height channels : Nat)
    (mipmaps : List Bytes) (hlen : mipmaps.length < UINT_MODULUS) :
    Create2D_loop self width height channels mipmaps =
      mipmaps.foldl (mip_step channels self.m_bpc)
        { vec_subresource_data := [], mip_width := width, mip_height := height,
          m_size := self.m_size } := by
  simp [Create2D_loop, Nat.mod_eq_of_lt hlen]

end Spartan

namespace Spartan

/-! ## `ShaderResource_Create2D` -/

theorem isEmpty_of_ne_nil {α : Type} (l : List α) (hne : l ≠ []) : l.isEmpty = false := by
  cases l with
  | nil => exact absurd rfl hne
  | cons a l => rfl

/-- The outcome when the device fails to create the texture object (lines 115-119). -/
theorem Create2D_of_texture_failure (d3d11_format : Nat → Nat) (dev : D3D11_Device)
    (self : RHI_Texture) (width height channels format : Nat) (mipmaps : List Bytes)
    (hne : mipmaps ≠ [])
    (h1 : dev.CreateTexture2D
      (some (texture_desc_2D d3d11_format self width height format mipmaps))
      (initial_data_2D self width height channels mipmaps) = none) :
    ShaderResource_Create2D d3d11_format (some dev) self width height channels format mipmaps =
      { ret := false
        self := { self with
          m_size := (Create2D_loop self width height channels mipmaps).m_size }
        calls := [DeviceCall.CreateTexture2D
          (some (texture_desc_2D d3d11_format self width height format mipmaps))
          (initial_data_2D self width height channels mipmaps)] } := by
  simp [ShaderResource_Create2D, isEmpty_of_ne_nil mipmaps hne, h1]

/-- The outcome when the texture object is created but the view is not (lines 131-138). -/
theorem Create2D_of_view_failure (d3d11_format : Nat → Nat) (dev : D3D11_Device)
    (self : RHI_Texture) (width height channels format : Nat) (mipmaps : List Bytes)
    (texture : Nat) (hne : mipmaps ≠ [])
    (h1 : dev.CreateTexture2D
      (some (texture_desc_2D d3d11_format self width height format mipmaps))
      (initial_data_2D self width height channels mipmaps) = some texture)
    (h2 : dev.CreateShaderResourceView texture
      (shader_resource_desc_2D d3d11_format self width height format mipmaps) = none) :
    ShaderResource_Create2D d3d11_format (some dev) self width height channels format mipmaps =
      { ret := true
        self := { self with
          m_size := (Create2D_loop self width height channels mipmaps).m_size
          m_texture_view := none }
        calls := [DeviceCall.CreateTexture2D
            (some (texture_desc_2D d3d11_format self width height format mipmaps))
            (initial_data_2D self width height channels mipmaps),
          DeviceCall.CreateShaderResourceView texture
            (shader_resource_desc_2D d3d11_format self width height format mipmaps),
          DeviceCall.Release texture] } := by
  simp [ShaderResource_Create2D, isEmpty_of_ne_nil mipmaps hne, h1, h2]

/-- The outcome when both device objects are created (lines 123-138). -/
theorem Create2D_of_success (d3d11_format : Nat → Nat) (dev : D3D11_Device)
    (self : RHI_Texture) (width height channels format : Nat) (mipmaps : List Bytes)
    (texture view : Nat) (hne : mipmaps ≠ [])
    (h1 : dev.CreateTexture2D
      (some (texture_desc_2D d3d11_format self width height format mipmaps))
      (initial_data_2D self width height channels mipmaps) = some texture)
    (h2 : dev.CreateShaderResourceView texture
      (shader_resource_desc_2D d3d11_format self width height format mipmaps) = some view) :
    ShaderResource_Create2D d3d11_format (some dev) self width height channels format mipmaps =
      { ret := true
        self := { self with
          m_size := (Create2D_loop self width height channels mipmaps).m_size
          m_texture_view := some view }
        calls := [DeviceCall.CreateTexture2D
            (some (texture_desc_2D d3d11_format self width height format mipmaps))
            (initial_data_2D self width height channels mipmaps),
          DeviceCall.CreateShaderResourceView texture
            (shader_resource_desc_2D d3d11_format self width height format mipmaps)] ++
          (if generate_mipmaps self width height mipmaps then
            [DeviceCall.UpdateSubresource texture (vector_data (mipmaps.headD []))
               ((width * channels * (self.m_bpc / 8)) % UINT_MODULUS),
             DeviceCall.GenerateMips view]
           else []) ++ [DeviceCall.Release texture] } := by
  simp [ShaderResource_Create2D, isEmpty_of_ne_nil mipmaps hne, h1, h2]

/-- With a live device and a non-empty mip chain the first device call is `CreateTexture2D`
with the descriptor of lines 67-78 and the initial data of line 115. -/
theorem Create2D_first_call (d3d11_format : Nat → Nat) (dev : D3D11_Device)
    (self : RHI_Texture) (width height channels format : Nat) (mipmaps : List Bytes)
    (hne : mipmaps ≠ []) :
    (ShaderResource_Create2D d3d11_format (some dev) self width height channels format
        mipmaps).calls.head? =
      some (DeviceCall.CreateTexture2D
        (some (texture_desc_2D d3d11_format self width height format mipmaps))
        (initial_data_2D self width height channels mipmaps)) := by
  cases h1 : dev.CreateTexture2D
      (some (texture_desc_2D d3d11_format self width height format mipmaps))
      (initial_data_2D self width height channels mipmaps) with
  | none => rw [Create2D_of_texture_failure _ _ _ _ _ _ _ _ hne h1]; rfl
  | some texture =>
    cases h2 : dev.CreateShaderResourceView texture
        (shader_resource_desc_2D d3d11_format self width height format mipmaps) with
    | none => rw [Create2D_of_view_failure _ _ _ _ _ _ _ _ _ hne h1 h2]; rfl
    | some view => rw [Create2D_of_success _ _ _ _ _ _ _ _ _ _ hne h1 h2]; rfl

/-- With a live device and a non-empty mip chain the call returns `true` exactly when the
device creates the texture object. -/
theorem Create2D_ret (d3d11_format : Nat → Nat) (dev : D3D11_Device)
    (self : RHI_Texture) (width height channels format : Nat) (mipmaps : List Bytes)
    (hne : mipmaps ≠ []) :
    (ShaderResource_Create2D d3d11_format (some dev) self width height channels format
        mipmaps).ret =
      (dev.CreateTexture2D
        (some (texture_desc_2D d3d11_format self width height format mipmaps))
        (initial_data_2D self width height channels mipmaps)).isSome := by
  cases h1 : dev.CreateTexture2D
      (some (texture_desc_2D d3d11_format self width height format mipmaps))
      (initial_data_2D self width height channels mipmaps) with
  | none => rw [Create2D_of_texture_failure _ _ _ _ _ _ _ _ hne h1]; rfl
  | some texture =>
    cases h2 : dev.CreateShaderResourceView texture
        (shader_resource_desc_2D d3d11_format self width height format mipmaps) with
    | none => rw [Create2D_of_view_failure _ _ _ _ _ _ _ _ _ hne h1 h2]; rfl
    | some view => rw [Create2D_of_success _ _ _ _ _ _ _ _ _ _ hne h1 h2]; rfl

/-- Whenever the loop is reached, `m_size` afterwards is the loop's `m_size`. -/
theorem Create2D_m_size (d3d11_format : Nat → Nat) (dev : D3D11_Device)
    (self : RHI_Texture) (width height channels format : Nat) (mipmaps : List Bytes)
    (hne : mipmaps ≠ []) :
    (ShaderResource_Create2D d3d11_format (some dev) self width height channels format
        mipmaps).self.m_size =
      (Create2D_loop self width height channels mipmaps).m_size := by
  cases h1 : dev.CreateTexture2D
      (some (texture_desc_2D d3d11_format self width height format mipmaps))
      (initial_data_2D self width height channels mipmaps) with
  | none => rw [Create2D_of_texture_failure _ _ _ _ _ _ _ _ hne h1]
  | some texture =>
    cases h2 : dev.CreateShaderResourceView texture
        (shader_resource_desc_2D d3d11_format self width height format mipmaps) with
    | none => rw [Create2D_of_view_failure _ _ _ _ _ _ _ _ _ hne h1 h2]
    | some view => rw [Create2D_of_success _ _ _ _ _ _ _ _ _ _ hne h1 h2]

/-- C4, the claim as stated fails: a texture without mipmap support (`m_mipmap_support` false)
given one 256x256 level on a live device does not request auto-generation; the descriptor
passed to the device has `MipLevels = 1`, immutable usage and no generate-mips flag, and no
`GenerateMips` call is made. -/
theorem Create2D_no_generation_without_mipmap_support :
    (ShaderResource_Create2D (fun f => f)
        (some { CreateTexture2D := fun _ _ => some 1
                CreateShaderResourceView := fun _ _ => some 2 })
        { m_mipmap_support := false, m_bpc := 8, m_size := 0, m_texture_view := none }
        256 256 4 0 [[0, 0, 0, 0]]).calls =
      [DeviceCall.CreateTexture2D
         (some { Width := 256, Height := 256, MipLevels := 1, ArraySize := 1, Format := 0,
                 SampleDesc_Count := 1, SampleDesc_Quality := 0,
                 Usage := D3D11_USAGE_IMMUTABLE, BindFlags := D3D11_BIND_SHADER_RESOURCE,
                 MiscFlags := 0, CPUAccessFlags := 0 })
         (some [{ pSysMem := [0, 0, 0, 0], SysMemPitch := 1024, SysMemSlicePitch := 0 }]),
       DeviceCall.CreateShaderResourceView 1
         { Format := 0, ViewDimension := D3D11_SRV_DIMENSION_TEXTURE2D, MostDetailedMip := 0,
           MipLevels := 1 },
       DeviceCall.Release 1]
    ∧ generate_mipmaps
        { m_mipmap_support := false, m_bpc := 8, m_size := 0, m_texture_view := none }
        256 256 [[0, 0, 0, 0]] = false := by
  decide

/-- A texture without mipmap support never requests auto-generation (line 56). -/
theorem generate_mipmaps_of_no_support (self : RHI_Texture) (width height : Nat)
    (mipmaps : List Bytes) (hs : self.m_mipmap_support = false) :
    generate_mipmaps self width height mipmaps = false := by
  simp [generate_mipmaps, hs]

/-- C4, amended: for a live device and a mip chain of exactly one level, the descriptor passed
to `CreateTexture2D` is `texture_desc_2D`, and (a) if the texture supports mipmaps and
`width >= 4` and `height >= 4`, auto-generation is requested and `MipLevels = 7`; (b) if
`width < 4` or `height < 4`, auto-generation is not requested, `MipLevels = 1`, and the small
size alone does not make the call fail: whenever the device creates the texture object and
the view, the call returns `true`. -/
theorem Create2D_single_level_generation (d3d11_format : Nat → Nat) (dev : D3D11_Device)
    (self : RHI_Texture) (width height channels format : Nat) (mip : Bytes) :
    (ShaderResource_Create2D d3d11_format (some dev) self width height channels format
        [mip]).calls.head? =
      some (DeviceCall.CreateTexture2D
        (some (texture_desc_2D d3d11_format self width height format [mip]))
        (initial_data_2D self width height channels [mip]))
    ∧ (self.m_mipmap_support = true → 4 ≤ width → 4 ≤ height →
        generate_mipmaps self width height [mip] = true
        ∧ (texture_desc_2D d3d11_format self width height format [mip]).MipLevels = 7
        ∧ (texture_desc_2D d3d11_format self width height format [mip]).MiscFlags
            = D3D11_RESOURCE_MISC_GENERATE_MIPS)
    ∧ (width < 4 ∨ height < 4 →
        generate_mipmaps self width height [mip] = false
        ∧ (texture_desc_2D d3d11_format self width height format [mip]).MipLevels = 1
        ∧ (texture_desc_2D d3d11_format self width height format [mip]).MiscFlags = 0
        ∧ ∀ texture view,
            dev.CreateTexture2D
              (some (texture_desc_2D d3d11_format self width height format [mip]))
              (initial_data_2D self width height channels [mip]) = some texture →
            dev.CreateShaderResourceView texture
              (shader_resource_desc_2D d3d11_format self width height format [mip])
                = some view →
            (ShaderResource_Create2D d3d11_format (some dev) self width height channels format
              [mip]).ret = true) := by
  refine ⟨Create2D_first_call _ _ _ _ _ _ _ _ (by simp), ?_, ?_⟩
  · intro hs hw hh
    have hg : generate_mipmaps self width height [mip] = true := by
      have h1 : ¬ width < 4 := by omega
      have h2 : ¬ height < 4 := by omega
      simp [generate_mipmaps, hs, h1, h2]
    simp [texture_desc_2D, hg]
  · intro hsmall
    have hg : generate_mipmaps self width height [mip] = false := by
      unfold generate_mipmaps
      cases hs : self.m_mipmap_support
      · simp
      · have : (decide (width < 4) || decide (height < 4)) = true := by
          rcases hsmall with h | h <;> simp [h]
        simp [this]
    refine ⟨hg, by simp [texture_desc_2D, hg, UINT_MODULUS],
      by simp [texture_desc_2D, hg], ?_⟩
    intro texture view h1 h2
    rw [Create2D_of_success _ _ _ _ _ _ _ _ _ _ (by simp) h1 h2]

/-- C4, amended, at concrete inputs: 256x256 with mipmap support requests generation with
`MipLevels = 7`; 2x2 does not, has `MipLevels = 1` and succeeds on a device that creates the
texture object and the view. -/
theorem Create2D_single_level_generation_witness :
    (generate_mipmaps
        { m_mipmap_support := true, m_bpc := 8, m_size := 0, m_texture_view := none }
        256 256 [[0, 0, 0, 0]] = true
      ∧ (texture_desc_2D (fun f => f)
          { m_mipmap_support := true, m_bpc := 8, m_size := 0, m_texture_view := none }
          256 256 0 [[0, 0, 0, 0]]).MipLevels = 7
      ∧ (texture_desc_2D (fun f => f)
          { m_mipmap_support := true, m_bpc := 8, m_size := 0, m_texture_view := none }
          256 256 0 [[0, 0, 0, 0]]).MiscFlags = D3D11_RESOURCE_MISC_GENERATE_MIPS)
    ∧ (generate_mipmaps
        { m_mipmap_support := true, m_bpc := 8, m_size := 0, m_texture_view := none }
        2 2 [[0, 0, 0, 0]] = false
      ∧ (texture_desc_2D (fun f => f)
          { m_mipmap_support := true, m_bpc := 8, m_size := 0, m_texture_view := none }
          2 2 0 [[0, 0, 0, 0]]).MipLevels = 1
      ∧ (ShaderResource_Create2D (fun f => f)
          (some { CreateTexture2D := fun _ _ => some 1
                  CreateShaderResourceView := fun _ _ => some 2 })
          { m_mipmap_support := true, m_bpc := 8, m_size := 0, m_texture_view := none }
          2 2 4 0 [[0, 0, 0, 0]]).ret = true) :=
  ⟨(Create2D_single_level_generation (fun f => f)
      { CreateTexture2D := fun _ _ => some 1, CreateShaderResourceView := fun _ _ => some 2 }
      { m_mipmap_support := true, m_bpc := 8, m_size := 0, m_texture_view := none }
      256 256 4 0 [0, 0, 0, 0]).2.1 rfl (by decide) (by decide),
   by
    have h := (Create2D_single_level_generation (fun f => f)
      { CreateTexture2D := fun _ _ => some 1, CreateShaderResourceView := fun _ _ => some 2 }
      { m_mipmap_support := true, m_bpc := 8, m_size := 0, m_texture_view := none }
      2 2 4 0 [0, 0, 0, 0]).2.2 (Or.inl (by decide))
    exact ⟨h.1, h.2.1, h.2.2.2 1 2 rfl rfl⟩⟩

theorem vector_data_of_ne_nil {α : Type} (v : List α) (h : v ≠ []) :
    vector_data v = some v := by
  simp [vector_data, isEmpty_of_ne_nil v h]

theorem entries_from_length (channels m_bpc : Nat) (ms : List Bytes) (w : Nat) :
    (entries_from channels m_bpc w ms).length = ms.length := by
  have h := congrArg List.length (entries_from_pSysMem channels m_bpc ms w)
  simpa using h

/-- For a chain of fewer than `2 ^ 32` levels the array built by the loop of
`ShaderResource_Create2D` has one entry per non-empty level. -/
theorem Create2D_loop_entries_of_lt (self : RHI_Texture) (width height channels : Nat)
    (mipmaps : List Bytes) (hlen : mipmaps.length < UINT_MODULUS) :
    (Create2D_loop self width height channels mipmaps).vec_subresource_data =
      entries_from channels self.m_bpc width (non_empty_levels mipmaps) := by
  have h := (foldl_mip_step_locals channels self.m_bpc mipmaps
    { vec_subresource_data := [], mip_width := width, mip_height := height,
      m_size := self.m_size }).1
  rw [Create2D_loop_take _ _ _ _ _ hlen]
  simpa using h

/-- C5, the claim as stated fails: a 2x2 texture given one level whose buffer is empty is not
auto-generated, yet `CreateTexture2D` receives a null initial-data pointer: the loop skipped
the only level, so `vec_subresource_data` is empty and its `data()` is null. -/
theorem Create2D_null_initial_data_without_generation :
    generate_mipmaps
        { m_mipmap_support := true, m_bpc := 8, m_size := 0, m_texture_view := none }
        2 2 [[]] = false
    ∧ (ShaderResource_Create2D (fun f => f)
        (some { CreateTexture2D := fun _ _ => some 1
                CreateShaderResourceView := fun _ _ => some 2 })
        { m_mipmap_support := true, m_bpc := 8, m_size := 0, m_texture_view := none }
        2 2 1 0 [[]]).calls.head? =
      some (DeviceCall.CreateTexture2D
        (some { Width := 2, Height := 2, MipLevels := 1, ArraySize := 1, Format := 0,
                SampleDesc_Count := 1, SampleDesc_Quality := 0,
                Usage := D3D11_USAGE_IMMUTABLE, BindFlags := D3D11_BIND_SHADER_RESOURCE,
                MiscFlags := 0, CPUAccessFlags := 0 })
        none) := by
  decide

/-- C5, amended: with a live device and a non-empty mip chain (of fewer than `2 ^ 32` levels,
so that the cast to `UINT` keeps the count), `CreateTexture2D` is called with a descriptor
fixed by the auto-generate decision.  When auto-generating: default usage, bind flags
shader-resource plus render-target, the generate-mips flag, `MipLevels = 7`, and a null
initial-data pointer.  When not: immutable usage, shader-resource as only bind flag, no misc
flag, `MipLevels` equal to the number of supplied levels, and as initial data the `data()`
pointer of the array built by the loop, which is that array when some supplied level is
non-empty and a null pointer when every supplied level is empty.  In both cases
`ArraySize = 1`, and the view descriptor, with which `CreateShaderResourceView` is called once
the texture object exists, carries the same `MipLevels`. -/
theorem Create2D_descriptor (d3d11_format : Nat → Nat) (dev : D3D11_Device)
    (self : RHI_Texture) (width height channels format : Nat) (mipmaps : List Bytes)
    (hne : mipmaps ≠ []) (hlen : mipmaps.length < UINT_MODULUS) :
    (ShaderResource_Create2D d3d11_format (some dev) self width height channels format
        mipmaps).calls.head? =
      some (DeviceCall.CreateTexture2D
        (some (texture_desc_2D d3d11_format self width height format mipmaps))
        (initial_data_2D self width height channels mipmaps))
    ∧ (generate_mipmaps self width height mipmaps = true →
        (texture_desc_2D d3d11_format self width height format mipmaps).Usage
            = D3D11_USAGE_DEFAULT
        ∧ (texture_desc_2D d3d11_format self width height format mipmaps).BindFlags
            = D3D11_BIND_SHADER_RESOURCE ||| D3D11_BIND_RENDER_TARGET
        ∧ (texture_desc_2D d3d11_format self width height format mipmaps).MiscFlags
            = D3D11_RESOURCE_MISC_GENERATE_MIPS
        ∧ (texture_desc_2D d3d11_format self width height format mipmaps).MipLevels = 7
        ∧ initial_data_2D self width height channels mipmaps = none)
    ∧ (generate_mipmaps self width height mipmaps = false →
        (texture_desc_2D d3d11_format self width height format mipmaps).Usage
            = D3D11_USAGE_IMMUTABLE
        ∧ (texture_desc_2D d3d11_format self width height format mipmaps).BindFlags
            = D3D11_BIND_SHADER_RESOURCE
        ∧ (texture_desc_2D d3d11_format self width height format mipmaps).MiscFlags = 0
        ∧ (texture_desc_2D d3d11_format self width height format mipmaps).MipLevels
            = mipmaps.length
        ∧ initial_data_2D self width height channels mipmaps
            = vector_data (Create2D_loop self width height channels mipmaps).vec_subresource_data
        ∧ ((∃ m ∈ mipmaps, m ≠ []) →
            initial_data_2D self width height channels mipmaps
              = some (Create2D_loop self width height channels mipmaps).vec_subresource_data)
        ∧ ((∀ m ∈ mipmaps, m = []) →
            initial_data_2D self width height channels mipmaps = none))
    ∧ (texture_desc_2D d3d11_format self width height format mipmaps).ArraySize = 1
    ∧ (shader_resource_desc_2D d3d11_format self width height format mipmaps).MipLevels
        = (texture_desc_2D d3d11_format self width height format mipmaps).MipLevels
    ∧ (∀ texture, dev.CreateTexture2D
          (some (texture_desc_2D d3d11_format self width height format mipmaps))
          (initial_data_2D self width height channels mipmaps) = some texture →
        (ShaderResource_Create2D d3d11_format (some dev) self width height channels format
          mipmaps).calls[1]? =
        some (DeviceCall.CreateShaderResourceView texture
          (shader_resource_desc_2D d3d11_format self width height format mipmaps))) := by
  refine ⟨Create2D_first_call _ _ _ _ _ _ _ _ hne, ?_, ?_, rfl, rfl, ?_⟩
  · intro hg
    simp [texture_desc_2D, initial_data_2D, hg]
  · intro hg
    have hdata : initial_data_2D self width height channels mipmaps
        = vector_data (Create2D_loop self width height channels mipmaps).vec_subresource_data := by
      simp [initial_data_2D, hg]
    refine ⟨by simp [texture_desc_2D, hg], by simp [texture_desc_2D, hg],
      by simp [texture_desc_2D, hg],
      by simp [texture_desc_2D, hg, Nat.mod_eq_of_lt hlen], hdata, ?_, ?_⟩
    · rintro ⟨m, hm, hmne⟩
      rw [hdata]
      apply vector_data_of_ne_nil
      intro hnil
      have hl := congrArg List.length hnil
      rw [Create2D_loop_entries_of_lt _ _ _ _ _ hlen, entries_from_length] at hl
      have hmem : m ∈ non_empty_levels mipmaps := by
        unfold non_empty_levels
        rw [List.mem_filter]
        refine ⟨hm, ?_⟩
        cases m with
        | nil => exact absurd rfl hmne
        | cons a l => rfl
      have : non_empty_levels mipmaps = [] := List.length_eq_zero.mp (by simpa using hl)
      rw [this] at hmem
      simp at hmem
    · intro hall
      rw [hdata, Create2D_loop_entries_of_lt _ _ _ _ _ hlen]
      have hf : non_empty_levels mipmaps = [] := by
        unfold non_empty_levels
        rw [List.filter_eq_nil_iff]
        intro m hm
        simp [hall m hm]
      rw [hf]
      rfl
  · intro texture h1
    cases h2 : dev.CreateShaderResourceView texture
        (shader_resource_desc_2D d3d11_format self width height format mipmaps) with
    | none => rw [Create2D_of_view_failure _ _ _ _ _ _ _ _ _ hne h1 h2]; rfl
    | some view => rw [Create2D_of_success _ _ _ _ _ _ _ _ _ _ hne h1 h2]; simp

/-- C5, amended, at concrete inputs: a 2x2 texture with two supplied levels is not
auto-generated and gets an immutable shader-resource descriptor with `MipLevels = 2` and the
loop's array as initial data; a 256x256 texture with one level is auto-generated and gets a
default-usage descriptor with both bind flags, the generate-mips flag, `MipLevels = 7` and no
initial data. -/
theorem Create2D_descriptor_witness :
    ((texture_desc_2D (fun f => f)
        { m_mipmap_support := true, m_bpc := 8, m_size := 0, m_texture_view := none }
        2 2 0 [[0, 0, 0, 0], [0]]).Usage = D3D11_USAGE_IMMUTABLE
    ∧ (texture_desc_2D (fun f => f)
        { m_mipmap_support := true, m_bpc := 8, m_size := 0, m_texture_view := none }
        2 2 0 [[0, 0, 0, 0], [0]]).BindFlags = D3D11_BIND_SHADER_RESOURCE
    ∧ (texture_desc_2D (fun f => f)
        { m_mipmap_support := true, m_bpc := 8, m_size := 0, m_texture_view := none }
        2 2 0 [[0, 0, 0, 0], [0]]).MiscFlags = 0
    ∧ (texture_desc_2D (fun f => f)
        { m_mipmap_support := true, m_bpc := 8, m_size := 0, m_texture_view := none }
        2 2 0 [[0, 0, 0, 0], [0]]).MipLevels = [[0, 0, 0, 0], [0]].length
    ∧ initial_data_2D
        { m_mipmap_support := true, m_bpc := 8, m_size := 0, m_texture_view := none }
        2 2 1 [[0, 0, 0, 0], [0]]
      = some (Create2D_loop
          { m_mipmap_support := true, m_bpc := 8, m_size := 0, m_texture_view := none }
          2 2 1 [[0, 0, 0, 0], [0]]).vec_subresource_data)
    ∧ ((texture_desc_2D (fun f => f)
        { m_mipmap_support := true, m_bpc := 8, m_size := 0, m_texture_view := none }
        256 256 0 [[0, 0, 0, 0]]).Usage = D3D11_USAGE_DEFAULT
    ∧ (texture_desc_2D (fun f => f)
        { m_mipmap_support := true, m_bpc := 8, m_size := 0, m_texture_view := none }
        256 256 0 [[0, 0, 0, 0]]).BindFlags
          = D3D11_BIND_SHADER_RESOURCE ||| D3D11_BIND_RENDER_TARGET
    ∧ (texture_desc_2D (fun f => f)
        { m_mipmap_support := true, m_bpc := 8, m_size := 0, m_texture_view := none }
        256 256 0 [[0, 0, 0, 0]]).MiscFlags = D3D11_RESOURCE_MISC_GENERATE_MIPS
    ∧ (texture_desc_2D (fun f => f)
        { m_mipmap_support := true, m_bpc := 8, m_size := 0, m_texture_view := none }
        256 256 0 [[0, 0, 0, 0]]).MipLevels = 7
    ∧ initial_data_2D
        { m_mipmap_support := true, m_bpc := 8, m_size := 0, m_texture_view := none }
        256 256 4 [[0, 0, 0, 0]] = none) := by
  have h2 := (Create2D_descriptor (fun f => f)
      { CreateTexture2D := fun _ _ => some 1, CreateShaderResourceView := fun _ _ => some 2 }
      { m_mipmap_support := true, m_bpc := 8, m_size := 0, m_texture_view := none }
      2 2 1 0 [[0, 0, 0, 0], [0]] (by decide) (by decide)).2.2.1 (by decide)
  have h256 := (Create2D_descriptor (fun f => f)
      { CreateTexture2D := fun _ _ => some 1, CreateShaderResourceView := fun _ _ => some 2 }
      { m_mipmap_support := true, m_bpc := 8, m_size := 0, m_texture_view := none }
      256 256 4 0 [[0, 0, 0, 0]] (by decide) (by decide)).2.1 (by decide)
  exact ⟨⟨h2.1, h2.2.1, h2.2.2.1, h2.2.2.2.1,
    h2.2.2.2.2.2.1 ⟨[0], by decide, by decide⟩⟩, h256⟩

/-- C6, the code at the failing input: on a device that creates the texture object (handle 1)
and then fails to create the view, `ShaderResource_Create2D` returns `true` (the claim says
`false`), leaving a null view; the texture object is released once.  On the same device
`ShaderResource_CreateCubemap` returns `false` and releases the texture object once. -/
theorem Create2D_view_failure_returns_true :
    ShaderResource_Create2D (fun f => f)
        (some { CreateTexture2D := fun _ _ => some 1
                CreateShaderResourceView := fun _ _ => none })
        { m_mipmap_support := true, m_bpc := 8, m_size := 0, m_texture_view := none }
        2 2 1 0 [[0, 0, 0, 0]] =
      { ret := true
        self := { m_mipmap_support := true, m_bpc := 8, m_size := 4, m_texture_view := none }
        calls :=
          [DeviceCall.CreateTexture2D
             (some { Width := 2, Height := 2, MipLevels := 1, ArraySize := 1, Format := 0,
                     SampleDesc_Count := 1, SampleDesc_Quality := 0,
                     Usage := D3D11_USAGE_IMMUTABLE, BindFlags := D3D11_BIND_SHADER_RESOURCE,
                     MiscFlags := 0, CPUAccessFlags := 0 })
             (some [{ pSysMem := [0, 0, 0, 0], SysMemPitch := 2, SysMemSlicePitch := 0 }]),
           DeviceCall.CreateShaderResourceView 1
             { Format := 0, ViewDimension := D3D11_SRV_DIMENSION_TEXTURE2D,
               MostDetailedMip := 0, MipLevels := 1 },
           DeviceCall.Release 1] }
    ∧ (ShaderResource_CreateCubemap (fun f => f)
        (some { CreateTexture2D := fun _ _ => some 1
                CreateShaderResourceView := fun _ _ => none })
        { m_mipmap_support := true, m_bpc := 8, m_size := 0, m_texture_view := none }
        2 2 1 0 [[[0, 0, 0, 0]]]).ret = false
    ∧ (ShaderResource_CreateCubemap (fun f => f)
        (some { CreateTexture2D := fun _ _ => some 1
                CreateShaderResourceView := fun _ _ => none })
        { m_mipmap_support := true, m_bpc := 8, m_size := 0, m_texture_view := none }
        2 2 1 0 [[[0, 0, 0, 0]]]).calls.count (DeviceCall.Release 1) = 1 := by
  decide

/-- C7, the claim as stated fails: on a live device that fails to create the texture object,
the call returns `false` but `m_size` has grown from 0 to 4. -/
theorem Create2D_texture_failure_keeps_size_growth :
    (ShaderResource_Create2D (fun f => f)
        (some { CreateTexture2D := fun _ _ => none
                CreateShaderResourceView := fun _ _ => none })
        { m_mipmap_support := true, m_bpc := 8, m_size := 0, m_texture_view := none }
        2 2 1 0 [[0, 0, 0, 0]]).ret = false
    ∧ (ShaderResource_Create2D (fun f => f)
        (some { CreateTexture2D := fun _ _ => none
                CreateShaderResourceView := fun _ _ => none })
        { m_mipmap_support := true, m_bpc := 8, m_size := 0, m_texture_view := none }
        2 2 1 0 [[0, 0, 0, 0]]).self.m_size = 4
    ∧ (4 : Nat) ≠
        ({ m_mipmap_support := true, m_bpc := 8, m_size := 0, m_texture_view := none } :
          RHI_Texture).m_size := by
  decide

/-- C7, amended: if the device is null or the mip collection is empty, the call returns
`false`, makes no device call and leaves the whole texture state (so `m_size` and
`m_texture_view`) as it was; if the device fails to create the texture object, the call
returns `false` and `m_texture_view` is as it was. -/
theorem Create2D_failure_state (d3d11_format : Nat → Nat) (device : Option D3D11_Device)
    (self : RHI_Texture) (width height channels format : Nat) (mipmaps : List Bytes) :
    (device = none ∨ mipmaps = [] →
      ShaderResource_Create2D d3d11_format device self width height channels format mipmaps =
        { ret := false, self := self, calls := [] })
    ∧ (∀ dev, device = some dev → mipmaps ≠ [] →
        dev.CreateTexture2D
          (some (texture_desc_2D d3d11_format self width height format mipmaps))
          (initial_data_2D self width height channels mipmaps) = none →
        (ShaderResource_Create2D d3d11_format device self width height channels format
          mipmaps).ret = false
        ∧ (ShaderResource_Create2D d3d11_format device self width height channels format
          mipmaps).self.m_texture_view = self.m_texture_view) := by
  constructor
  · intro h
    rcases h with h | h
    · subst h; rfl
    · subst h
      cases device <;> rfl
  · intro dev hdev hne h1
    subst hdev
    rw [Create2D_of_texture_failure _ _ _ _ _ _ _ _ hne h1]
    exact ⟨rfl, rfl⟩

/-- C7, amended, at concrete inputs: a null device, and a device that fails to create the
texture object while the texture already holds view 7. -/
theorem Create2D_failure_state_witness :
    ShaderResource_Create2D (fun f => f) none
        { m_mipmap_support := true, m_bpc := 8, m_size := 5, m_texture_view := some 7 }
        2 2 1 0 [[0, 0, 0, 0]] =
      { ret := false
        self := { m_mipmap_support := true, m_bpc := 8, m_size := 5, m_texture_view := some 7 }
        calls := [] }
    ∧ ((ShaderResource_Create2D (fun f => f)
          (some { CreateTexture2D := fun _ _ => none
                  CreateShaderResourceView := fun _ _ => none })
          { m_mipmap_support := true, m_bpc := 8, m_size := 5, m_texture_view := some 7 }
          2 2 1 0 [[0, 0, 0, 0]]).ret = false
      ∧ (ShaderResource_Create2D (fun f => f)
          (some { CreateTexture2D := fun _ _ => none
                  CreateShaderResourceView := fun _ _ => none })
          { m_mipmap_support := true, m_bpc := 8, m_size := 5, m_texture_view := some 7 }
          2 2 1 0 [[0, 0, 0, 0]]).self.m_texture_view = some 7) :=
  ⟨(Create2D_failure_state (fun f => f) none
      { m_mipmap_support := true, m_bpc := 8, m_size := 5, m_texture_view := some 7 }
      2 2 1 0 [[0, 0, 0, 0]]).1 (Or.inl rfl),
   (Create2D_failure_state (fun f => f)
      (some { CreateTexture2D := fun _ _ => none, CreateShaderResourceView := fun _ _ => none })
      { m_mipmap_support := true, m_bpc := 8, m_size := 5, m_texture_view := some 7 }
      2 2 1 0 [[0, 0, 0, 0]]).2 _ rfl (by decide) rfl⟩

end Spartan

namespace Spartan

theorem Create2D_loop_m_size (self : RHI_Texture) (width height channels : Nat)
    (mipmaps : List Bytes) (hlen : mipmaps.length < UINT_MODULUS)
    (hsize : self.m_size < UINT_MODULUS) :
    (Create2D_loop self width height channels mipmaps).m_size =
      (self.m_size + byte_total self.m_bpc (non_empty_levels mipmaps)) % UINT_MODULUS := by
  rw [Create2D_loop_take _ _ _ _ _ hlen]
  exact foldl_mip_step_size _ _ _ _ hsize

/-- C8: for a mip chain (of fewer than `2 ^ 32` levels) passed with a live device that creates
the texture object, the initial-data array built by the loop points to exactly the non-empty
levels in their order, `m_size` (a 32-bit unsigned value) afterwards is its old value plus the
sum over the non-empty levels of `length * (m_bpc / 8)`, modulo `2 ^ 32`, and the call returns
`true` whenever some level is non-empty. -/
theorem Create2D_skips_empty_levels (d3d11_format : Nat → Nat) (dev : D3D11_Device)
    (self : RHI_Texture) (width height channels format : Nat) (mipmaps : List Bytes)
    (texture : Nat) (hlen : mipmaps.length < UINT_MODULUS)
    (hsize : self.m_size < UINT_MODULUS)
    (h1 : dev.CreateTexture2D
      (some (texture_desc_2D d3d11_format self width height format mipmaps))
      (initial_data_2D self width height channels mipmaps) = some texture) :
    (Create2D_loop self width height channels mipmaps).vec_subresource_data.map
        (fun d => d.pSysMem) = mipmaps.filter (fun m => !m.isEmpty)
    ∧ (ShaderResource_Create2D d3d11_format (some dev) self width height channels format
        mipmaps).self.m_size =
      (self.m_size + ((mipmaps.filter (fun m => !m.isEmpty)).map
        (fun m => m.length * (self.m_bpc / 8))).sum) % UINT_MODULUS
    ∧ ((∃ m ∈ mipmaps, m ≠ []) →
      (ShaderResource_Create2D d3d11_format (some dev) self width height channels format
        mipmaps).ret = true) := by
  refine ⟨?_, ?_, ?_⟩
  · rw [Create2D_loop_entries_of_lt _ _ _ _ _ hlen, entries_from_pSysMem]
    rfl
  · by_cases hne : mipmaps = []
    · subst hne
      simp [ShaderResource_Create2D, Nat.mod_eq_of_lt hsize]
    · rw [Create2D_m_size _ _ _ _ _ _ _ _ hne, Create2D_loop_m_size _ _ _ _ _ hlen hsize]
      rfl
  · rintro ⟨m, hm, -⟩
    have hne : mipmaps ≠ [] := List.ne_nil_of_mem hm
    rw [Create2D_ret _ _ _ _ _ _ _ _ hne, h1]
    rfl

/-- C8 at concrete inputs: of the levels `[[1, 2, 3, 4], [], [5]]` the empty one is skipped,
`m_size` grows from 10 by `4 + 1`, and the call succeeds. -/
theorem Create2D_skips_empty_levels_witness :
    (Create2D_loop
        { m_mipmap_support := true, m_bpc := 8, m_size := 10, m_texture_view := none }
        2 2 1 [[1, 2, 3, 4], [], [5]]).vec_subresource_data.map (fun d => d.pSysMem)
      = [[1, 2, 3, 4], [5]]
    ∧ (ShaderResource_Create2D (fun f => f)
        (some { CreateTexture2D := fun _ _ => some 1
                CreateShaderResourceView := fun _ _ => some 2 })
        { m_mipmap_support := true, m_bpc := 8, m_size := 10, m_texture_view := none }
        2 2 1 0 [[1, 2, 3, 4], [], [5]]).self.m_size = 15
    ∧ (ShaderResource_Create2D (fun f => f)
        (some { CreateTexture2D := fun _ _ => some 1
                CreateShaderResourceView := fun _ _ => some 2 })
        { m_mipmap_support := true, m_bpc := 8, m_size := 10, m_texture_view := none }
        2 2 1 0 [[1, 2, 3, 4], [], [5]]).ret = true := by
  have h := Create2D_skips_empty_levels (fun f => f)
    { CreateTexture2D := fun _ _ => some 1, CreateShaderResourceView := fun _ _ => some 2 }
    { m_mipmap_support := true, m_bpc := 8, m_size := 10, m_texture_view := none }
    2 2 1 0 [[1, 2, 3, 4], [], [5]] 1 (by decide) (by decide) rfl
  exact ⟨h.1, h.2.1.trans (by decide), h.2.2 ⟨[5], by decide, by decide⟩⟩

/-- C10, the claim as stated fails: for width 8 and levels `[[], [0]]` the only recorded entry
is that of level 1 and its row stride is `8 * 1 * (8 / 8) = 8`, whereas the width of mip
level 1 of the chain is `max (8 / 2) 1 = 4`: skipping the empty level 0 did not halve the
width. -/
theorem Create2D_stride_after_skipped_level :
    (Create2D_loop
        { m_mipmap_support := true, m_bpc := 8, m_size := 0, m_texture_view := none }
        8 8 1 [[], [0]]).vec_subresource_data
      = [{ pSysMem := [0], SysMemPitch := 8, SysMemSlicePitch := 0 }]
    ∧ mip_dimension 8 1 * 1 * (8 / 8) = 4 := by
  decide

/-- C10, amended: for a mip chain of fewer than `2 ^ 32` levels and a non-empty level `i` of
it, let `j` be the number of non-empty levels before `i`.  The entry recorded for level `i`
is entry `j` of the initial-data array and its row stride is
`mip_dimension width j * channels * (m_bpc / 8)` modulo `2 ^ 32`, where
`mip_dimension width 0 = width` and `mip_dimension width (k + 1) =
max (mip_dimension width k / 2) 1`; when iteration `i` starts the loop's width and height are
`mip_dimension width j` and `mip_dimension height j`.  If no level before `i` is empty then
`j = i`, and if `width >= 1` or `j >= 1` then `mip_dimension width j = max (width / 2 ^ j) 1`
(likewise for the height). -/
theorem Create2D_row_stride (self : RHI_Texture) (width height channels : Nat)
    (mipmaps : List Bytes) (i : Nat) (hlen : mipmaps.length < UINT_MODULUS)
    (hi : i < mipmaps.length) (hne : mipmaps[i] ≠ []) :
    (Create2D_loop self width height channels mipmaps).vec_subresource_data[
        (non_empty_levels (mipmaps.take i)).length]? =
      some { pSysMem := mipmaps[i]
             SysMemPitch := (mip_dimension width (non_empty_levels (mipmaps.take i)).length
               * channels * (self.m_bpc / 8)) % UINT_MODULUS
             SysMemSlicePitch := 0 }
    ∧ (Create2D_loop self width height channels (mipmaps.take i)).mip_width =
        mip_dimension width (non_empty_levels (mipmaps.take i)).length
    ∧ (Create2D_loop self width height channels (mipmaps.take i)).mip_height =
        mip_dimension height (non_empty_levels (mipmaps.take i)).length
    ∧ ((∀ m ∈ mipmaps.take i, m ≠ []) → (non_empty_levels (mipmaps.take i)).length = i)
    ∧ (1 ≤ width ∨ 1 ≤ (non_empty_levels (mipmaps.take i)).length →
        mip_dimension width (non_empty_levels (mipmaps.take i)).length =
          max (width / 2 ^ (non_empty_levels (mipmaps.take i)).length) 1)
    ∧ (1 ≤ height ∨ 1 ≤ (non_empty_levels (mipmaps.take i)).length →
        mip_dimension height (non_empty_levels (mipmaps.take i)).length =
          max (height / 2 ^ (non_empty_levels (mipmaps.take i)).length) 1) := by
  have hlen2 : (mipmaps.take i).length < UINT_MODULUS := by
    rw [List.length_take]; omega
  have hloc := foldl_mip_step_locals channels self.m_bpc (mipmaps.take i)
    { vec_subresource_data := [], mip_width := width, mip_height := height,
      m_size := self.m_size }
  refine ⟨?_, ?_, ?_, ?_, mip_dimension_closed _ _, mip_dimension_closed _ _⟩
  · rw [Create2D_loop_entries_of_lt _ _ _ _ _ hlen, entries_from_getElem?,
      non_empty_levels_index mipmaps i hi hne]
    rfl
  · rw [Create2D_loop_take _ _ _ _ _ hlen2]
    exact hloc.2.1
  · rw [Create2D_loop_take _ _ _ _ _ hlen2]
    exact hloc.2.2
  · intro hall
    have hf : non_empty_levels (mipmaps.take i) = mipmaps.take i := by
      unfold non_empty_levels
      rw [List.filter_eq_self]
      intro m hm
      have := hall m hm
      cases m with
      | nil => exact absurd rfl this
      | cons a l => rfl
    rw [hf, List.length_take]
    omega

/-- C10, amended, at concrete inputs: for width 8, height 4 and levels `[[], [0], [1]]`,
level 2 has one non-empty level before it, so its entry is entry 1 with stride
`max (8 / 2) 1 * 1 * 1 = 4`. -/
theorem Create2D_row_stride_witness :
    (Create2D_loop
        { m_mipmap_support := true, m_bpc := 8, m_size := 0, m_texture_view := none }
        8 4 1 [[], [0], [1]]).vec_subresource_data[1]? =
      some { pSysMem := [1], SysMemPitch := 4, SysMemSlicePitch := 0 }
    ∧ (Create2D_loop
        { m_mipmap_support := true, m_bpc := 8, m_size := 0, m_texture_view := none }
        8 4 1 [[], [0]]).mip_width = 4
    ∧ (Create2D_loop
        { m_mipmap_support := true, m_bpc := 8, m_size := 0, m_texture_view := none }
        8 4 1 [[], [0]]).mip_height = 2 := by
  have h := Create2D_row_stride
    { m_mipmap_support := true, m_bpc := 8, m_size := 0, m_texture_view := none }
    8 4 1 [[], [0], [1]] 2 (by decide) (by decide) (by decide)
  exact ⟨h.1.trans (by decide), h.2.1.trans (by decide), h.2.2.1.trans (by decide)⟩

end Spartan

namespace Spartan

/-! ## `ShaderResource_CreateCubemap` -/

/-- What the outer loop leaves in `vec_subresource_data`: for each side, one entry per
non-empty mip, with strides starting again from `width`. -/
theorem foldl_side_step_entries (d3d11_format : Nat → Nat)
    (m_bpc width height channels format mip_levels : Nat) (sides : List (List Bytes))
    (st : SideLoopState) :
    (sides.foldl (side_step d3d11_format m_bpc width height channels format mip_levels)
        st).vec_subresource_data =
      st.vec_subresource_data ++
        (sides.map (fun side =>
          entries_from channels m_bpc width (non_empty_levels side))).flatten := by
  induction sides generalizing st with
  | nil => simp
  | cons side sides ih =>
    rw [List.foldl_cons, ih]
    by_cases hs : side.isEmpty = true
    · have hnil : side = [] := List.isEmpty_iff.mp hs
      subst hnil
      simp [side_step, non_empty_levels, entries_from]
    · simp only [side_step, hs, Bool.false_eq_true, ↓reduceIte, List.map_cons,
        List.flatten_cons]
      rw [(foldl_mip_step_locals channels m_bpc side _).1]
      simp

/-- What the outer loop adds to `m_size`. -/
theorem foldl_side_step_size (d3d11_format : Nat → Nat)
    (m_bpc width height channels format mip_levels : Nat) (sides : List (List Bytes))
    (st : SideLoopState) (hs : st.m_size < UINT_MODULUS) :
    (sides.foldl (side_step d3d11_format m_bpc width height channels format mip_levels)
        st).m_size =
      (st.m_size + byte_total m_bpc (non_empty_levels sides.flatten)) % UINT_MODULUS := by
  induction sides generalizing st with
  | nil => simp [non_empty_levels, byte_total, Nat.mod_eq_of_lt hs]
  | cons side sides ih =>
    rw [List.foldl_cons]
    by_cases he : side.isEmpty = true
    · have hnil : side = [] := List.isEmpty_iff.mp he
      subst hnil
      have : side_step d3d11_format m_bpc width height channels format mip_levels st [] = st := by
        simp [side_step]
      rw [this, ih st hs]
      simp
    · have hstep : (side_step d3d11_format m_bpc width height channels format mip_levels st
          side).m_size = (st.m_size + byte_total m_bpc (non_empty_levels side))
            % UINT_MODULUS := by
        simp only [side_step, he, Bool.false_eq_true, ↓reduceIte]
        exact foldl_mip_step_size channels m_bpc side _ hs
      rw [ih _ (by rw [hstep]; exact Nat.mod_lt _ (by decide)), hstep]
      simp only [List.flatten_cons, non_empty_levels_append, byte_total, List.map_append,
        List.sum_append]
      unfold UINT_MODULUS
      omega

theorem non_empty_levels_flatten_pSysMem (channels m_bpc width : Nat)
    (sides : List (List Bytes)) :
    ((sides.map (fun side =>
        entries_from channels m_bpc width (non_empty_levels side))).flatten).map
      (fun d => d.pSysMem) = non_empty_levels sides.flatten := by
  induction sides with
  | nil => rfl
  | cons side sides ih =>
    simp only [List.map_cons, List.flatten_cons, List.map_append, ih, entries_from_pSysMem,
      non_empty_levels_append]

/-- The outcome of the cubemap build once the face collection is non-empty, by device
behaviour. -/
theorem Cubemap_of_non_empty (d3d11_format : Nat → Nat) (device : Option D3D11_Device)
    (self : RHI_Texture) (width height channels format : Nat) (mipmaps : List (List Bytes))
    (hne : mipmaps ≠ []) :
    ShaderResource_CreateCubemap d3d11_format device self width height channels format mipmaps =
      match device with
      | none =>
        { ret := false
          self := { self with m_size :=
            (Cubemap_loop d3d11_format self width height channels format mipmaps).m_size }
          calls := [] }
      | some dev =>
        match dev.CreateTexture2D
          (Cubemap_loop d3d11_format self width height channels format
            mipmaps).vec_texture_desc.head?
          (initial_data_cube d3d11_format self width height channels format mipmaps) with
        | none =>
          { ret := false
            self := { self with m_size :=
              (Cubemap_loop d3d11_format self width height channels format mipmaps).m_size }
            calls := [DeviceCall.CreateTexture2D
              (Cubemap_loop d3d11_format self width height channels format
                mipmaps).vec_texture_desc.head?
              (initial_data_cube d3d11_format self width height channels format mipmaps)] }
        | some texture =>
          { ret := (dev.CreateShaderResourceView texture
              (shader_resource_desc_cube d3d11_format format mipmaps)).isSome
            self := { self with
              m_size :=
                (Cubemap_loop d3d11_format self width height channels format mipmaps).m_size
              m_texture_view := dev.CreateShaderResourceView texture
                (shader_resource_desc_cube d3d11_format format mipmaps) }
            calls := [DeviceCall.CreateTexture2D
                (Cubemap_loop d3d11_format self width height channels format
                  mipmaps).vec_texture_desc.head?
                (initial_data_cube d3d11_format self width height channels format mipmaps),
              DeviceCall.CreateShaderResourceView texture
                (shader_resource_desc_cube d3d11_format format mipmaps),
              DeviceCall.Release texture] } := by
  have he := isEmpty_of_ne_nil mipmaps hne
  cases device with
  | none => simp [ShaderResource_CreateCubemap, he]
  | some dev =>
    simp only [ShaderResource_CreateCubemap, he, Bool.false_eq_true, ↓reduceIte]
    cases h1 : dev.CreateTexture2D
        (Cubemap_loop d3d11_format self width height channels format
          mipmaps).vec_texture_desc.head?
        (initial_data_cube d3d11_format self width height channels format mipmaps) with
    | none => rfl
    | some texture =>
      cases h2 : dev.CreateShaderResourceView texture
          (shader_resource_desc_cube d3d11_format format mipmaps) with
      | none => simp [h2]
      | some view => simp [h2]

/-- C9, the claim as stated fails: with a null device and a non-empty face collection the
call returns `false` although the collection is not empty and no device creation was
attempted (no device call is made); `m_size` has already grown from 0 to 1. -/
theorem Cubemap_null_device_fails :
    ShaderResource_CreateCubemap (fun f => f) none
        { m_mipmap_support := true, m_bpc := 8, m_size := 0, m_texture_view := none }
        2 2 1 0 [[[0]]] =
      { ret := false
        self := { m_mipmap_support := true, m_bpc := 8, m_size := 1, m_texture_view := none }
        calls := [] }
    ∧ ([[[0]]] : List (List Bytes)) ≠ [] := by
  decide

/-- C9, amended: `ShaderResource_CreateCubemap` returns `false` if and only if the face
collection is empty, or the device is null, or the device fails to create the texture object,
or it creates it and fails to create the view.  An empty face collection fails with no state
touched and no device call.  For a non-empty collection, the initial-data array points to
exactly the non-empty mips of all faces in order (an empty face or empty mip contributes no
entry), and `m_size` (below `2 ^ 32` before) grows by the sum of `length * (m_bpc / 8)` over
those mips, modulo `2 ^ 32`.  The device receives the `data()` pointer of that array, null
when the array is empty. -/
theorem Cubemap_failure_iff (d3d11_format : Nat → Nat) (device : Option D3D11_Device)
    (self : RHI_Texture) (width height channels format : Nat) (mipmaps : List (List Bytes)) :
    ((ShaderResource_CreateCubemap d3d11_format device self width height channels format
        mipmaps).ret = false ↔
      mipmaps = [] ∨ device = none ∨
      ∃ dev, device = some dev ∧
        (dev.CreateTexture2D
            (Cubemap_loop d3d11_format self width height channels format
              mipmaps).vec_texture_desc.head?
            (initial_data_cube d3d11_format self width height channels format mipmaps) = none
          ∨ ∃ texture, dev.CreateTexture2D
              (Cubemap_loop d3d11_format self width height channels format
                mipmaps).vec_texture_desc.head?
              (initial_data_cube d3d11_format self width height channels format mipmaps)
                = some texture
            ∧ dev.CreateShaderResourceView texture
                (shader_resource_desc_cube d3d11_format format mipmaps) = none))
    ∧ (mipmaps = [] →
        ShaderResource_CreateCubemap d3d11_format device self width height channels format
          mipmaps = { ret := false, self := self, calls := [] })
    ∧ (Cubemap_loop d3d11_format self width height channels format
          mipmaps).vec_subresource_data.map (fun d => d.pSysMem)
        = (mipmaps.flatten).filter (fun m => !m.isEmpty)
    ∧ (mipmaps ≠ [] → self.m_size < UINT_MODULUS →
        (ShaderResource_CreateCubemap d3d11_format device self width height channels format
          mipmaps).self.m_size =
        (self.m_size + (((mipmaps.flatten).filter (fun m => !m.isEmpty)).map
          (fun m => m.length * (self.m_bpc / 8))).sum) % UINT_MODULUS)
    ∧ initial_data_cube d3d11_format self width height channels format mipmaps =
        vector_data (Cubemap_loop d3d11_format self width height channels format
          mipmaps).vec_subresource_data := by
  refine ⟨?_, ?_, ?_, ?_, rfl⟩
  · by_cases hne : mipmaps = []
    · subst hne
      simp [ShaderResource_CreateCubemap]
    · rw [Cubemap_of_non_empty _ _ _ _ _ _ _ _ hne]
      cases device with
      | none => simp
      | some dev =>
        cases h1 : dev.CreateTexture2D
            (Cubemap_loop d3d11_format self width height channels format
              mipmaps).vec_texture_desc.head?
            (initial_data_cube d3d11_format self width height channels format mipmaps) with
        | none => simp [hne, h1]
        | some texture =>
          cases h2 : dev.CreateShaderResourceView texture
              (shader_resource_desc_cube d3d11_format format mipmaps) with
          | none => simp [hne, h1, h2]
          | some view => simp [hne, h1, h2]
  · intro h
    subst h
    rfl
  · unfold Cubemap_loop
    rw [foldl_side_step_entries, List.nil_append, non_empty_levels_flatten_pSysMem]
    rfl
  · intro hne hsize
    have hm : (ShaderResource_CreateCubemap d3d11_format device self width height channels
        format mipmaps).self.m_size =
        (Cubemap_loop d3d11_format self width height channels format mipmaps).m_size := by
      rw [Cubemap_of_non_empty _ _ _ _ _ _ _ _ hne]
      cases device with
      | none => rfl
      | some dev =>
        cases h1 : dev.CreateTexture2D
            (Cubemap_loop d3d11_format self width height channels format
              mipmaps).vec_texture_desc.head?
            (initial_data_cube d3d11_format self width height channels format mipmaps) with
        | none => simp [h1]
        | some texture => simp [h1]
    rw [hm]
    unfold Cubemap_loop
    rw [foldl_side_step_size _ _ _ _ _ _ _ _ _ hsize]
    rfl

/-- C9, amended, at concrete inputs: faces `[[[1, 2]], [], [[], [3]]]` on a device that
creates both objects succeed, the empty face and empty mip are skipped, and `m_size` grows
from 0 to 3; the empty collection fails with the state untouched; and for the single face
`[[]]`, whose only mip is empty, the device receives a null initial-data pointer and the call
fails exactly because the device (which rejects null initial data) creates no texture
object. -/
theorem Cubemap_failure_iff_witness :
    (ShaderResource_CreateCubemap (fun f => f)
        (some { CreateTexture2D := fun _ _ => some 1
                CreateShaderResourceView := fun _ _ => some 2 })
        { m_mipmap_support := true, m_bpc := 8, m_size := 0, m_texture_view := none }
        2 2 1 0 [[[1, 2]], [], [[], [3]]]).self.m_size = 3
    ∧ ShaderResource_CreateCubemap (fun f => f)
        (some { CreateTexture2D := fun _ _ => some 1
                CreateShaderResourceView := fun _ _ => some 2 })
        { m_mipmap_support := true, m_bpc := 8, m_size := 0, m_texture_view := none }
        2 2 1 0 [] =
      { ret := false
        self := { m_mipmap_support := true, m_bpc := 8, m_size := 0, m_texture_view := none }
        calls := [] }
    ∧ (ShaderResource_CreateCubemap (fun f => f)
        (some { CreateTexture2D := fun _ data => if data.isSome then some 1 else none
                CreateShaderResourceView := fun _ _ => some 2 })
        { m_mipmap_support := true, m_bpc := 8, m_size := 0, m_texture_view := none }
        2 2 1 0 [[[]]]).ret = false
    ∧ initial_data_cube (fun f => f)
        { m_mipmap_support := true, m_bpc := 8, m_size := 0, m_texture_view := none }
        2 2 1 0 [[[]]] = none := by
  have h := Cubemap_failure_iff (fun f => f)
    (some { CreateTexture2D := fun _ _ => some 1, CreateShaderResourceView := fun _ _ => some 2 })
    { m_mipmap_support := true, m_bpc := 8, m_size := 0, m_texture_view := none }
    2 2 1 0 [[[1, 2]], [], [[], [3]]]
  have h0 := Cubemap_failure_iff (fun f => f)
    (some { CreateTexture2D := fun _ _ => some 1, CreateShaderResourceView := fun _ _ => some 2 })
    { m_mipmap_support := true, m_bpc := 8, m_size := 0, m_texture_view := none }
    2 2 1 0 []
  have h1 := Cubemap_failure_iff (fun f => f)
    (some { CreateTexture2D := fun _ data => if data.isSome then some 1 else none
            CreateShaderResourceView := fun _ _ => some 2 })
    { m_mipmap_support := true, m_bpc := 8, m_size := 0, m_texture_view := none }
    2 2 1 0 [[[]]]
  exact ⟨(h.2.2.2.1 (by decide) (by decide)).trans (by decide), h0.2.1 rfl,
    h1.1.mpr (Or.inr (Or.inr ⟨_, rfl, Or.inl (by decide)⟩)), by decide⟩

end Spartan

namespace Directus

/-! ## `ResourceManager` -/

/-- C1, the code at the failing input: in a project rooted at `/proj/` with an empty cache
and an importer that always succeeds, loading the absolute path `/proj/models/cube.obj`
twice invokes the importer twice (the claim says exactly once).  The first call stores the
resource under the relative path `models/cube.obj`, but the second call tests `IsCached` on
the path as given, misses, constructs resource 1 and loads it again, and only then `Add`
finds the path cached and hands back resource 0. -/
theorem Load_absolute_path_twice_imports_twice :
    (ResourceManager.mk [] 0).m_resourceCache.IsCached "/proj/models/cube.obj" = false
    ∧ ResourceManager.Load (project_file_system "/proj/") (fun _ => true) 0
        (ResourceManager.mk [] 0) "/proj/models/cube.obj" =
      { ret := some { m_resourceID := 0, m_resourceFilePath := "models/cube.obj",
                      m_resourceName := "cube", m_resourceType := 0,
                      m_loadState := LoadState.Completed },
        mgr := { m_resourceCache :=
                   [{ m_resourceID := 0, m_resourceFilePath := "models/cube.obj",
                      m_resourceName := "cube", m_resourceType := 0,
                      m_loadState := LoadState.Completed }],
                 next_id := 1 },
        typed := some { m_resourceID := 0, m_resourceFilePath := "models/cube.obj",
                        m_resourceName := "cube", m_resourceType := 0,
                        m_loadState := LoadState.Completed },
        calls := [ResourceCall.SetLoadState 0 LoadState.Loading,
                  ResourceCall.LoadFromFile 0 "models/cube.obj",
                  ResourceCall.SetLoadState 0 LoadState.Completed] }
    ∧ ResourceManager.Load (project_file_system "/proj/") (fun _ => true) 0
        (ResourceManager.Load (project_file_system "/proj/") (fun _ => true) 0
          (ResourceManager.mk [] 0) "/proj/models/cube.obj").mgr "/proj/models/cube.obj" =
      { ret := some { m_resourceID := 0, m_resourceFilePath := "models/cube.obj",
                      m_resourceName := "cube", m_resourceType := 0,
                      m_loadState := LoadState.Completed },
        mgr := { m_resourceCache :=
                   [{ m_resourceID := 0, m_resourceFilePath := "models/cube.obj",
                      m_resourceName := "cube", m_resourceType := 0,
                      m_loadState := LoadState.Completed }],
                 next_id := 2 },
        typed := some { m_resourceID := 1, m_resourceFilePath := "models/cube.obj",
                        m_resourceName := "cube", m_resourceType := 0,
                        m_loadState := LoadState.Completed },
        calls := [ResourceCall.SetLoadState 1 LoadState.Loading,
                  ResourceCall.LoadFromFile 1 "models/cube.obj",
                  ResourceCall.SetLoadState 1 LoadState.Completed] }
    ∧ importer_invocations
        ((ResourceManager.Load (project_file_system "/proj/") (fun _ => true) 0
            (ResourceManager.mk [] 0) "/proj/models/cube.obj").calls ++
          (ResourceManager.Load (project_file_system "/proj/") (fun _ => true) 0
            (ResourceManager.Load (project_file_system "/proj/") (fun _ => true) 0
              (ResourceManager.mk [] 0) "/proj/models/cube.obj").mgr
            "/proj/models/cube.obj").calls) = 2 := by
  decide

/-- A second way in which loading twice goes wrong: with `a/cube.obj` (resource 0) cached,
loading the relative path `b/cube.obj` twice returns the new resource 1 the first time and
resource 0, found under the shared name `cube`, the second time. -/
theorem Load_twice_with_shared_stem :
    (ResourceManager.Load (project_file_system "/proj/") (fun _ => true) 0
        { m_resourceCache :=
            [{ m_resourceID := 0, m_resourceFilePath := "a/cube.obj",
               m_resourceName := "cube", m_resourceType := 0,
               m_loadState := LoadState.Completed }],
          next_id := 1 } "b/cube.obj").ret.map (fun r => r.m_resourceID) = some 1
    ∧ (ResourceManager.Load (project_file_system "/proj/") (fun _ => true) 0
        (ResourceManager.Load (project_file_system "/proj/") (fun _ => true) 0
          { m_resourceCache :=
              [{ m_resourceID := 0, m_resourceFilePath := "a/cube.obj",
                 m_resourceName := "cube", m_resourceType := 0,
                 m_loadState := LoadState.Completed }],
            next_id := 1 } "b/cube.obj").mgr "b/cube.obj").ret.map
        (fun r => r.m_resourceID) = some 0 := by
  decide

/-- C2, the code at the failing input: with `a/cube.obj` (resource 0) and `b/cube.obj`
(resource 1) cached, both named `cube`, adding a resource with path `b/cube.obj` returns
resource 0, whose path is `a/cube.obj`, instead of the cached entry with that path (the
cache is unchanged).  And with `a/cube.obj` cached under the name `hero`, adding a resource
with path `a/cube.obj` returns an empty reference. -/
theorem Add_returns_entry_found_by_name :
    ResourceManager.Add (project_file_system "/proj/") 0
        { m_resourceCache :=
            [{ m_resourceID := 0, m_resourceFilePath := "a/cube.obj",
               m_resourceName := "cube", m_resourceType := 0,
               m_loadState := LoadState.Completed },
             { m_resourceID := 1, m_resourceFilePath := "b/cube.obj",
               m_resourceName := "cube", m_resourceType := 0,
               m_loadState := LoadState.Completed }],
          next_id := 3 }
        (some { m_resourceID := 2, m_resourceFilePath := "b/cube.obj",
                m_resourceName := "cube", m_resourceType := 0,
                m_loadState := LoadState.Completed }) =
      (some { m_resourceID := 0, m_resourceFilePath := "a/cube.obj",
              m_resourceName := "cube", m_resourceType := 0,
              m_loadState := LoadState.Completed },
       { m_resourceCache :=
            [{ m_resourceID := 0, m_resourceFilePath := "a/cube.obj",
               m_resourceName := "cube", m_resourceType := 0,
               m_loadState := LoadState.Completed },
             { m_resourceID := 1, m_resourceFilePath := "b/cube.obj",
               m_resourceName := "cube", m_resourceType := 0,
               m_loadState := LoadState.Completed }],
          next_id := 3 })
    ∧ ResourceManager.Add (project_file_system "/proj/") 0
        { m_resourceCache :=
            [{ m_resourceID := 0, m_resourceFilePath := "a/cube.obj",
               m_resourceName := "hero", m_resourceType := 0,
               m_loadState := LoadState.Completed }],
          next_id := 2 }
        (some { m_resourceID := 1, m_resourceFilePath := "a/cube.obj",
                m_resourceName := "cube", m_resourceType := 0,
                m_loadState := LoadState.Completed }) =
      (none,
       { m_resourceCache :=
            [{ m_resourceID := 0, m_resourceFilePath := "a/cube.obj",
               m_resourceName := "hero", m_resourceType := 0,
               m_loadState := LoadState.Completed }],
          next_id := 2 }) := by
  decide

/-- When the path is cached, what `Add` returns depends on the path only through its file
stem: two resources with cached paths of the same stem get the same reference, so if their
paths differ at most one of them gets the entry stored under its own path. -/
theorem Add_of_cached_depends_on_stem (fs : FileSystem) (T : Nat) (mgr : ResourceManager)
    (r1 r2 : Resource)
    (h1 : mgr.m_resourceCache.IsCached r1.m_resourceFilePath = true)
    (h2 : mgr.m_resourceCache.IsCached r2.m_resourceFilePath = true)
    (hs : fs.GetFileNameNoExtensionFromFilePath r1.m_resourceFilePath
      = fs.GetFileNameNoExtensionFromFilePath r2.m_resourceFilePath) :
    (ResourceManager.Add fs T mgr (some r1)).1 = (ResourceManager.Add fs T mgr (some r2)).1 := by
  simp [ResourceManager.Add, h1, h2, hs]

/-- The part of the duplicate-path rule that the code keeps: adding a resource whose path is
cached never changes the manager. -/
theorem Add_of_cached_keeps_manager (fs : FileSystem) (T : Nat) (mgr : ResourceManager)
    (r : Resource) (hc : mgr.m_resourceCache.IsCached r.m_resourceFilePath = true) :
    (ResourceManager.Add fs T mgr (some r)).2 = mgr := by
  simp [ResourceManager.Add, hc]

/-- C3: for every path that is not cached, when `LoadFromFile` fails on the relative path,
`Load` returns an empty reference, leaves the cache as it was, and the resource it constructed
was set to `Loading`, then loaded, then set to `Failed`, which is its final load-state. -/
theorem Load_failure (fs : FileSystem) (LoadFromFile : String → Bool) (T : Nat)
    (mgr : ResourceManager) (filePath : String)
    (hc : mgr.m_resourceCache.IsCached filePath = false)
    (hf : LoadFromFile (fs.GetRelativeFilePath filePath) = false) :
    (ResourceManager.Load fs LoadFromFile T mgr filePath).ret = none
    ∧ (ResourceManager.Load fs LoadFromFile T mgr filePath).mgr.m_resourceCache
        = mgr.m_resourceCache
    ∧ (ResourceManager.Load fs LoadFromFile T mgr filePath).typed =
        some { m_resourceID := mgr.next_id,
               m_resourceFilePath := fs.GetRelativeFilePath filePath,
               m_resourceName :=
                 fs.GetFileNameNoExtensionFromFilePath (fs.GetRelativeFilePath filePath),
               m_resourceType := T,
               m_loadState := LoadState.Failed }
    ∧ (ResourceManager.Load fs LoadFromFile T mgr filePath).calls =
        [ResourceCall.SetLoadState mgr.next_id LoadState.Loading,
         ResourceCall.LoadFromFile mgr.next_id (fs.GetRelativeFilePath filePath),
         ResourceCall.SetLoadState mgr.next_id LoadState.Failed] := by
  simp [ResourceManager.Load, hc, hf, Resource.construct]

/-- C3 at concrete inputs: loading `/proj/models/cube.obj` with a failing importer into a
cache that holds `a/b.png`. -/
theorem Load_failure_witness :
    (ResourceManager.Load (project_file_system "/proj/") (fun _ => false) 0
        { m_resourceCache :=
            [{ m_resourceID := 0, m_resourceFilePath := "a/b.png", m_resourceName := "b",
               m_resourceType := 1, m_loadState := LoadState.Completed }],
          next_id := 1 } "/proj/models/cube.obj").ret = none
    ∧ (ResourceManager.Load (project_file_system "/proj/") (fun _ => false) 0
        { m_resourceCache :=
            [{ m_resourceID := 0, m_resourceFilePath := "a/b.png", m_resourceName := "b",
               m_resourceType := 1, m_loadState := LoadState.Completed }],
          next_id := 1 } "/proj/models/cube.obj").mgr.m_resourceCache =
      [{ m_resourceID := 0, m_resourceFilePath := "a/b.png", m_resourceName := "b",
         m_resourceType := 1, m_loadState := LoadState.Completed }] := by
  have h := Load_failure (project_file_system "/proj/") (fun _ => false) 0
    { m_resourceCache :=
        [{ m_resourceID := 0, m_resourceFilePath := "a/b.png", m_resourceName := "b",
           m_resourceType := 1, m_loadState := LoadState.Completed }],
      next_id := 1 } "/proj/models/cube.obj" (by decide) rfl
  exact ⟨h.1, h.2.1⟩

end Directus
